import Mathlib

set_option maxRecDepth 10000

/-!
Verification development for the soliton.c AES-256-GCM core.

The definitions below are a shallow embedding, into Lean, of the C sources
under `src/core/` (gcm_scalar.c, ghash_clmul.c, aes_scalar.c, dispatch.c,
ct_utils.h, common.h).  Machine integers are modelled as `Nat` with explicit
reductions `% 2^w` exactly where the C types wrap; byte buffers are
`List Nat` whose elements are byte values; `__m128i` vectors are pairs of
64-bit lanes.  All definitions are executable so that concrete runs of the
embedded code can be checked by `decide`.
-/

namespace Soliton

/-! ## Byte and word utilities (common.h) -/

/-- Truncation to a 64-bit unsigned value (C `uint64_t` wrap-around). -/
def u64 (x : Nat) : Nat := x % 2 ^ 64

/-- Truncation to a 32-bit unsigned value (C `uint32_t` wrap-around). -/
def u32 (x : Nat) : Nat := x % 2 ^ 32

/-- Truncation to a byte (C `uint8_t` conversion). -/
def u8 (x : Nat) : Nat := x % 2 ^ 8

/-- Read a byte from a buffer, 0 when out of range (C pointer indexing;
the C callers never read out of range, so the default is never observed
on inputs satisfying the stated length hypotheses). -/
def byt (l : List Nat) (i : Nat) : Nat := l.getD i 0

/-- `soliton_be64`: load 8 bytes big-endian (common.h). -/
def soliton_be64 (p : List Nat) : Nat :=
  (byt p 0 <<< 56) ||| (byt p 1 <<< 48) ||| (byt p 2 <<< 40) ||| (byt p 3 <<< 32) |||
  (byt p 4 <<< 24) ||| (byt p 5 <<< 16) ||| (byt p 6 <<< 8) ||| byt p 7

/-- `soliton_put_be64`: store a 64-bit value big-endian (common.h). -/
def soliton_put_be64 (v : Nat) : List Nat :=
  [u8 (v >>> 56), u8 (v >>> 48), u8 (v >>> 40), u8 (v >>> 32),
   u8 (v >>> 24), u8 (v >>> 16), u8 (v >>> 8), u8 v]

/-- `soliton_be32`: load 4 bytes big-endian (common.h). -/
def soliton_be32 (p : List Nat) : Nat :=
  (byt p 0 <<< 24) ||| (byt p 1 <<< 16) ||| (byt p 2 <<< 8) ||| byt p 3

/-- `soliton_put_be32`: store a 32-bit value big-endian (common.h). -/
def soliton_put_be32 (v : Nat) : List Nat :=
  [u8 (v >>> 24), u8 (v >>> 16), u8 (v >>> 8), u8 v]

/-- `soliton_le32`: load 4 bytes little-endian (common.h). -/
def soliton_le32 (p : List Nat) : Nat :=
  byt p 0 ||| (byt p 1 <<< 8) ||| (byt p 2 <<< 16) ||| (byt p 3 <<< 24)

/-- `soliton_put_le32`: store a 32-bit value little-endian (common.h). -/
def soliton_put_le32 (v : Nat) : List Nat :=
  [u8 v, u8 (v >>> 8), u8 (v >>> 16), u8 (v >>> 24)]

/-- 16 zero bytes. -/
def zero16 : List Nat := List.replicate 16 0

/-- Zero-pad a partial block to 16 bytes (the `uint8_t block[16] = {0}`
copy in the partial-block branches of the GHASH update routines). -/
def pad16 (l : List Nat) : List Nat := l ++ List.replicate (16 - l.length) 0

/-! ## GF(2^128) multiply and GHASH, scalar backend (gcm_scalar.c) -/

/-- The reduction constant `GHASH_R = 0xE1000000_00000000` (gcm_scalar.c). -/
def GHASH_R : Nat := 0xE100000000000000

/-- The `gf128_mul` loop (gcm_scalar.c), consuming the bits of one 64-bit
half of `x` from MSB to LSB.  Each iteration XORs `v` into `z` under the
mask `-(uint64_t)bit` (here rendered as multiplication by the bit, since
`v &&& (-(bit) : uint64) = v * bit`), then shifts `v` right by one with
conditional reduction by `GHASH_R` under the mask `-(uint64_t)lsb`. -/
def gf128_half : Nat → Nat → Nat → Nat → Nat → Nat → Nat × Nat × Nat × Nat
  | 0, _, z_h, z_l, v_h, v_l => (z_h, z_l, v_h, v_l)
  | i + 1, xhalf, z_h, z_l, v_h, v_l =>
    let bitv := (xhalf >>> i) &&& 1
    let z_h := z_h ^^^ v_h * bitv
    let z_l := z_l ^^^ v_l * bitv
    let lsb := v_l &&& 1
    let v_l := (v_l >>> 1) ||| u64 (v_h <<< 63)
    let v_h := (v_h >>> 1) ^^^ GHASH_R * lsb
    gf128_half i xhalf z_h z_l v_h v_l

/-- `gf128_mul` (gcm_scalar.c): multiply two 128-bit values, given as
big-endian (hi, lo) 64-bit halves, in GF(2^128) with the NIST right-shift
algorithm and reduction polynomial x^128 + x^7 + x^2 + x + 1.  The source
runs two 64-iteration loops, over the bits of `x_hi` then of `x_lo`,
MSB first (bit `63 - i` at iteration `i`, which is bit `j` at countdown
value `j + 1` here). -/
def gf128_mul (x_hi x_lo h_hi h_lo : Nat) : Nat × Nat :=
  let s1 := gf128_half 64 x_hi 0 0 h_hi h_lo
  let s2 := gf128_half 64 x_lo s1.1 s1.2.1 s1.2.2.1 s1.2.2.2
  (s2.1, s2.2.1)

/-- `ghash_load_block` (gcm_scalar.c): 16 bytes to big-endian (hi, lo). -/
def ghash_load_block (block : List Nat) : Nat × Nat :=
  (soliton_be64 block, soliton_be64 (block.drop 8))

/-- `ghash_store_block` (gcm_scalar.c): big-endian (hi, lo) to 16 bytes. -/
def ghash_store_block (hi lo : Nat) : List Nat :=
  soliton_put_be64 hi ++ soliton_put_be64 lo

/-- Fold one (already padded) 16-byte block into the GHASH state:
`state = (state XOR block) * H` (the loop body of `ghash_update_scalar`). -/
def ghash_fold_block (h state block : List Nat) : List Nat :=
  let (h_hi, h_lo) := ghash_load_block h
  let (s_hi, s_lo) := ghash_load_block state
  let (d_hi, d_lo) := ghash_load_block block
  let (r_hi, r_lo) := gf128_mul (s_hi ^^^ d_hi) (s_lo ^^^ d_lo) h_hi h_lo
  ghash_store_block r_hi r_lo

/-- The `while (len >= 16)` loop of `ghash_update_scalar`, by structural
recursion on the number of remaining full blocks; the final partial block
(if any) is zero-padded and folded, as in the source. -/
def ghash_blocks_go (h : List Nat) : Nat → List Nat → List Nat → List Nat
  | 0, st, data => if data.length = 0 then st else ghash_fold_block h st (pad16 data)
  | n + 1, st, data => ghash_blocks_go h n (ghash_fold_block h st (data.take 16)) (data.drop 16)

/-- `ghash_update_scalar` (gcm_scalar.c): fold `data` into the state block
by block; a trailing partial block is zero-padded. -/
def ghash_update_scalar (state h data : List Nat) : List Nat :=
  ghash_blocks_go h (data.length / 16) state data

/-- The `for (i = 1; i < 16; i++)` power loop of
`ghash_precompute_powers_scalar`: successive multiplications by H. -/
def ghash_powers_go (h_hi h_lo : Nat) : Nat → Nat → Nat → List (List Nat)
  | _, _, 0 => []
  | p_hi, p_lo, n + 1 =>
    let q := gf128_mul p_hi p_lo h_hi h_lo
    ghash_store_block q.1 q.2 :: ghash_powers_go h_hi h_lo q.1 q.2 n

/-- `ghash_precompute_powers_scalar` (gcm_scalar.c): the table
H^1, H^2, ..., H^16, each as a 16-byte block (index i holds H^(i+1)). -/
def ghash_precompute_powers_scalar (h : List Nat) : List (List Nat) :=
  let (h_hi, h_lo) := ghash_load_block h
  ghash_store_block h_hi h_lo :: ghash_powers_go h_hi h_lo h_hi h_lo 15

/-- `ghash_final_scalar` (gcm_scalar.c): append the length block
`[aad_len*8]_64 || [ct_len*8]_64` and multiply once more by H. -/
def ghash_final_scalar (state h : List Nat) (aad_len ct_len : Nat) : List Nat :=
  let len_block := soliton_put_be64 (u64 (aad_len * 8)) ++ soliton_put_be64 (u64 (ct_len * 8))
  ghash_fold_block h state len_block

/-! ## Table-free scalar AES-256 (aes_scalar.c) -/

/-- The AES round constants `rcon` (aes_scalar.c). -/
def rcon : List Nat := [0x00, 0x01, 0x02, 0x04, 0x08, 0x10, 0x20, 0x40, 0x80, 0x1B, 0x36]

/-- The `gf256_mul` loop (aes_scalar.c), 8 iterations.  `p ^= a & mask`
with `mask = -(b & 1)` is rendered as `p ^^^ a * (b &&& 1)`, and likewise
the conditional reduction `(0x1B & hi)` with `hi = -(a >> 7)` is
`0x1B * (a >>> 7)` (for a byte-valued `a`, `a >> 7` is the top bit). -/
def gf256_go : Nat → Nat → Nat → Nat → Nat
  | 0, p, _, _ => p
  | n + 1, p, a, b =>
    gf256_go n (p ^^^ a * (b &&& 1)) (u8 ((a <<< 1) ^^^ 0x1B * (a >>> 7))) (b >>> 1)

/-- `gf256_mul` (aes_scalar.c): multiply in GF(2^8) with reduction
polynomial x^8 + x^4 + x^3 + x + 1. -/
def gf256_mul (a b : Nat) : Nat := gf256_go 8 0 a b

/-- `gf256_square` (aes_scalar.c). -/
def gf256_square (a : Nat) : Nat := gf256_mul a a

/-- One output bit of the S-box affine transformation
`b_i = s_i XOR s_(i+4) XOR s_(i+5) XOR s_(i+6) XOR s_(i+7)` (aes_scalar.c). -/
def aes_affine_bit (s i : Nat) : Nat :=
  (((s >>> i) &&& 1) ^^^ ((s >>> ((i + 4) % 8)) &&& 1) ^^^ ((s >>> ((i + 5) % 8)) &&& 1) ^^^
    ((s >>> ((i + 6) % 8)) &&& 1) ^^^ ((s >>> ((i + 7) % 8)) &&& 1)) <<< i

/-- `aes_sbox` (aes_scalar.c): multiplicative inverse in GF(2^8) via the
x^254 addition chain, followed by the affine transformation with c = 0x63
(the source's 8-iteration loop, written out bit by bit). -/
def aes_sbox (x : Nat) : Nat :=
  let inv :=
    if x = 0 then 0
    else
      let a := x
      let a2 := gf256_square a
      let a3 := gf256_mul a a2
      let a6 := gf256_square a3
      let a7 := gf256_mul a a6
      let a14 := gf256_square a7
      let a15 := gf256_mul a a14
      let a30 := gf256_square a15
      let a60 := gf256_square a30
      let a120 := gf256_square a60
      let a127 := gf256_mul a7 a120
      gf256_square a127
  0x63 ^^^ aes_affine_bit inv 0 ^^^ aes_affine_bit inv 1 ^^^ aes_affine_bit inv 2 ^^^
    aes_affine_bit inv 3 ^^^ aes_affine_bit inv 4 ^^^ aes_affine_bit inv 5 ^^^
    aes_affine_bit inv 6 ^^^ aes_affine_bit inv 7

/-- `aes_sbox_word` (aes_scalar.c): apply the S-box to the 4 bytes of a word. -/
def aes_sbox_word (w : Nat) : Nat :=
  aes_sbox (u8 w) ||| (aes_sbox (u8 (w >>> 8)) <<< 8) |||
  (aes_sbox (u8 (w >>> 16)) <<< 16) ||| (aes_sbox (u8 (w >>> 24)) <<< 24)

/-- `SOLITON_ROTR32` (common.h). -/
def rotr32 (x n : Nat) : Nat := u32 ((x >>> n) ||| u32 (x <<< (32 - n)))

/-- `aes_mix_column` (aes_scalar.c). -/
def aes_mix_column (col : Nat) : Nat :=
  let b0 := u8 col
  let b1 := u8 (col >>> 8)
  let b2 := u8 (col >>> 16)
  let b3 := u8 (col >>> 24)
  let t := b0 ^^^ b1 ^^^ b2 ^^^ b3
  let u0 := gf256_mul (b0 ^^^ b1) 2
  let u1 := gf256_mul (b1 ^^^ b2) 2
  let u2 := gf256_mul (b2 ^^^ b3) 2
  let u3 := gf256_mul (b3 ^^^ b0) 2
  (b0 ^^^ u0 ^^^ t) ||| ((b1 ^^^ u1 ^^^ t) <<< 8) |||
  ((b2 ^^^ u2 ^^^ t) <<< 16) ||| ((b3 ^^^ u3 ^^^ t) <<< 24)

/-- The AES state as 4 column words, as a 4-element list. -/
def aes_state_bytes (st : List Nat) : List Nat :=
  (List.range 4).flatMap fun c =>
    [u8 (byt st c), u8 (byt st c >>> 8), u8 (byt st c >>> 16), u8 (byt st c >>> 24)]

/-- `aes_shift_rows` (aes_scalar.c): extract the column-major byte array,
rotate rows 1/2/3 left by 1/2/3, and reassemble the column words. -/
def aes_shift_rows (st : List Nat) : List Nat :=
  let s := aes_state_bytes st
  let g := byt s
  let s' := [g 0, g 5, g 10, g 15,
             g 4, g 9, g 14, g 3,
             g 8, g 13, g 2, g 7,
             g 12, g 1, g 6, g 11]
  (List.range 4).map fun c =>
    byt s' (c*4) ||| (byt s' (c*4+1) <<< 8) ||| (byt s' (c*4+2) <<< 16) ||| (byt s' (c*4+3) <<< 24)

/-- `aes_add_round_key` (aes_scalar.c): XOR the 4 state words with the
round-key words at offset `off`. -/
def aes_add_round_key (st rk : List Nat) (off : Nat) : List Nat :=
  (List.range 4).map fun i => byt st i ^^^ byt rk (off + i)

/-- One word of the `aes256_key_expand_scalar` recurrence. -/
def aes_key_expand_word (rk : List Nat) (i : Nat) : Nat :=
  let temp := byt rk (i - 1)
  let temp :=
    if i % 8 = 0 then aes_sbox_word (rotr32 temp 8) ^^^ byt rcon (i / 8)
    else if i % 8 = 4 then aes_sbox_word temp
    else temp
  byt rk (i - 8) ^^^ temp

/-- `aes256_key_expand_scalar` (aes_scalar.c): expand a 32-byte key into
60 32-bit round-key words (loaded little-endian). -/
def aes256_key_expand_scalar (key : List Nat) : List Nat :=
  let init8 := (List.range 8).map fun i => soliton_le32 (key.drop (i * 4))
  (List.range' 8 52).foldl (fun rk i => rk ++ [aes_key_expand_word rk i]) init8

/-- `aes256_encrypt_block_scalar` (aes_scalar.c): one AES-256 block
encryption, 14 rounds, state loaded/stored little-endian per word. -/
def aes256_encrypt_block_scalar (rk inp : List Nat) : List Nat :=
  let st := (List.range 4).map fun i => soliton_le32 (inp.drop (i * 4))
  let st := aes_add_round_key st rk 0
  let st := (List.range' 1 13).foldl
    (fun st round =>
      let st := st.map aes_sbox_word
      let st := aes_shift_rows st
      let st := st.map aes_mix_column
      aes_add_round_key st rk (round * 4)) st
  let st := st.map aes_sbox_word
  let st := aes_shift_rows st
  let st := aes_add_round_key st rk (14 * 4)
  st.flatMap soliton_put_le32

/-- The body of the 13-round loop of `aes256_encrypt_block_scalar`
(named so the per-round evaluations can be staged). -/
def aes_round (rk st : List Nat) (round : Nat) : List Nat :=
  let st := st.map aes_sbox_word
  let st := aes_shift_rows st
  let st := st.map aes_mix_column
  aes_add_round_key st rk (round * 4)

/-- The counter block `iv[0..11] || [n]_32` used by the CTR routines
(`ctr_block + 12` receives the big-endian 32-bit counter). -/
def ctr_block (iv : List Nat) (n : Nat) : List Nat :=
  iv.take 12 ++ soliton_put_be32 (u32 n)

/-- `aes256_ctr_blocks_scalar` (aes_scalar.c): encrypt `blocks` 16-byte
blocks of `inp` in CTR mode; block `b` is XORed with
`AES(iv[0..11] || counter + b)` (the 32-bit addition wraps). -/
def aes256_ctr_blocks_scalar (rk iv : List Nat) (counter : Nat) : List Nat → Nat → List Nat
  | _, 0 => []
  | inp, b + 1 =>
    let keystream := aes256_encrypt_block_scalar rk (ctr_block iv counter)
    List.zipWith Nat.xor (inp.take 16) keystream ++
      aes256_ctr_blocks_scalar rk iv (counter + 1) (inp.drop 16) b

/-! ## The CLMUL GHASH path (ghash_clmul.c)

`__m128i` vectors are modelled as a pair of 64-bit lanes (`lo` = bits
0..63, `hi` = bits 64..127 of the register; memory order is
little-endian, byte 0 of a stored block is the low byte of `lo`). -/

/-- A 128-bit SSE register: two 64-bit lanes. -/
structure M128 where
  lo : Nat
  hi : Nat
deriving DecidableEq, Repr

/-- `_mm_loadu_si128`: 16 little-endian bytes to a register. -/
def m128_load (b : List Nat) : M128 :=
  ⟨byt b 0 ||| (byt b 1 <<< 8) ||| (byt b 2 <<< 16) ||| (byt b 3 <<< 24) |||
   (byt b 4 <<< 32) ||| (byt b 5 <<< 40) ||| (byt b 6 <<< 48) ||| (byt b 7 <<< 56),
   byt b 8 ||| (byt b 9 <<< 8) ||| (byt b 10 <<< 16) ||| (byt b 11 <<< 24) |||
   (byt b 12 <<< 32) ||| (byt b 13 <<< 40) ||| (byt b 14 <<< 48) ||| (byt b 15 <<< 56)⟩

/-- `_mm_storeu_si128`: a register to 16 little-endian bytes. -/
def m128_store (x : M128) : List Nat :=
  [u8 x.lo, u8 (x.lo >>> 8), u8 (x.lo >>> 16), u8 (x.lo >>> 24),
   u8 (x.lo >>> 32), u8 (x.lo >>> 40), u8 (x.lo >>> 48), u8 (x.lo >>> 56),
   u8 x.hi, u8 (x.hi >>> 8), u8 (x.hi >>> 16), u8 (x.hi >>> 24),
   u8 (x.hi >>> 32), u8 (x.hi >>> 40), u8 (x.hi >>> 48), u8 (x.hi >>> 56)]

/-- `_mm_xor_si128`. -/
def mm_xor (a b : M128) : M128 := ⟨a.lo ^^^ b.lo, a.hi ^^^ b.hi⟩

/-- `_mm_slli_epi64`: logical shift left of each 64-bit lane. -/
def mm_slli_epi64 (a : M128) (n : Nat) : M128 := ⟨u64 (a.lo <<< n), u64 (a.hi <<< n)⟩

/-- `_mm_srli_epi64`: logical shift right of each 64-bit lane. -/
def mm_srli_epi64 (a : M128) (n : Nat) : M128 := ⟨a.lo >>> n, a.hi >>> n⟩

/-- `_mm_slli_si128(a, 8)`: shift the whole register left by 8 bytes
(the low lane moves into the high lane). -/
def mm_slli_si128_8 (a : M128) : M128 := ⟨0, a.lo⟩

/-- `_mm_srli_si128(a, 8)`: shift the whole register right by 8 bytes
(the high lane moves into the low lane). -/
def mm_srli_si128_8 (a : M128) : M128 := ⟨a.hi, 0⟩

/-- `_mm_shuffle_epi32(a, 0x4E)`: swap the two 64-bit halves. -/
def mm_shuffle_epi32_4E (a : M128) : M128 := ⟨a.hi, a.lo⟩

/-- The carry-less 64x64 -> 128-bit product computed by `PCLMULQDQ`,
bit `i` of `a` contributing `b <<< i`. -/
def clmul64_go : Nat → Nat → Nat → Nat → Nat
  | 0, r, _, _ => r
  | i + 1, r, a, b => clmul64_go i (r ^^^ (b <<< i) * ((a >>> i) &&& 1)) a b

/-- Carry-less multiply of two 64-bit values (the `PCLMULQDQ` primitive). -/
def clmul64 (a b : Nat) : Nat := clmul64_go 64 0 a b

/-- `_mm_clmulepi64_si128(a, b, sel)`: carry-less multiply of one 64-bit
lane of `a` (low bit of `sel`) with one lane of `b` (bit 4 of `sel`),
giving a 128-bit product. -/
def mm_clmulepi64 (a b : M128) (sel : Nat) : M128 :=
  let x := if sel &&& 0x01 = 0 then a.lo else a.hi
  let y := if sel &&& 0x10 = 0 then b.lo else b.hi
  let p := clmul64 x y
  ⟨u64 p, p >>> 64⟩

/-- `to_lepoly_128` / `from_lepoly_128` (ghash_clmul.c): byte reversal via
`_mm_shuffle_epi8` with the mask `setr(15, 14, ..., 0)`; this converts
between the GCM spec (big-endian) domain and the kernel (little-endian)
domain.  The two functions are the same shuffle. -/
def to_lepoly_128 (x : M128) : M128 := m128_load (m128_store x).reverse

/-- `from_lepoly_128` (ghash_clmul.c): identical byte reversal. -/
def from_lepoly_128 (x : M128) : M128 := to_lepoly_128 x

/-- `clmul_x4_256` (ghash_clmul.c): the reference 4-partial schoolbook
256-bit carry-less product; returns `(lo, hi)`. -/
def clmul_x4_256 (a b : M128) : M128 × M128 :=
  let p00 := mm_clmulepi64 a b 0x00
  let p01 := mm_clmulepi64 a b 0x01
  let p10 := mm_clmulepi64 a b 0x10
  let p11 := mm_clmulepi64 a b 0x11
  let mid := mm_xor p01 p10
  (mm_xor p00 (mm_slli_si128_8 mid), mm_xor p11 (mm_srli_si128_8 mid))

/-- `ghash_reduce_intel` (ghash_clmul.c): the left-shift 1/2/7, cross-lane,
right-shift 63/62/57 fold sequence reducing a 256-bit product `(lo, hi)`
to 128 bits. -/
def ghash_reduce_intel (lo hi : M128) : M128 :=
  let v1 := mm_slli_epi64 hi 1
  let v2 := mm_slli_epi64 hi 2
  let v7 := mm_slli_epi64 hi 7
  let lo := mm_xor lo (mm_xor v1 (mm_xor v2 v7))
  let hi_shift := mm_slli_si128_8 hi
  let w1 := mm_slli_epi64 hi_shift 1
  let w2 := mm_slli_epi64 hi_shift 2
  let w7 := mm_slli_epi64 hi_shift 7
  let lo := mm_xor lo (mm_xor w1 (mm_xor w2 w7))
  let t1 := mm_srli_epi64 hi 63
  let t2 := mm_srli_epi64 hi 62
  let t7 := mm_srli_epi64 hi 57
  let fold := mm_xor t1 (mm_xor t2 t7)
  mm_xor lo (mm_xor hi fold)

/-- `ghash_mul_reflected` (ghash_clmul.c): the kernel-domain GHASH
multiply, `clmul_x4_256` followed by `ghash_reduce_intel`. -/
def ghash_mul_reflected (a b : M128) : M128 :=
  let p := clmul_x4_256 a b
  ghash_reduce_intel p.1 p.2

/-- `ghash_setkey_preprocess` (ghash_clmul.c): byte-swap H from the spec
domain into the kernel domain.  The multiply-by-x step is removed in the
source ("GCM spec uses H = E_K(0) directly, NO preprocessing"). -/
def ghash_setkey_preprocess (h_spec : List Nat) : M128 :=
  to_lepoly_128 (m128_load h_spec)

/-- The power loop of `ghash_precompute_h_powers_clmul`. -/
def ghash_h_powers_go (h : M128) : Nat → M128 → List (List Nat)
  | 0, _ => []
  | n + 1, hp =>
    let hp := ghash_mul_reflected hp h
    m128_store hp :: ghash_h_powers_go h n hp

/-- The running power of the `ghash_h_powers_go` chain as a fuel
iteration (proof staging for the concrete power table). -/
def hp_iter (h : M128) : Nat → M128 → M128
  | 0, hp => hp
  | n + 1, hp => hp_iter h n (ghash_mul_reflected hp h)

/-- `ghash_precompute_h_powers_clmul` (ghash_clmul.c): H^1..H^16 in the
reflected (kernel) domain, each stored as 16 bytes. -/
def ghash_precompute_h_powers_clmul (h_spec : List Nat) : List (List Nat) :=
  let h := ghash_setkey_preprocess h_spec
  m128_store h :: ghash_h_powers_go h 15 h

/-- The block loop of `ghash_update_clmul`, by structural recursion on the
number of remaining full blocks; `Xi = (Xi XOR to_lepoly(C)) * H`. -/
def ghash_clmul_go (h : M128) : Nat → M128 → List Nat → M128
  | 0, y, data =>
    if data.length = 0 then y
    else ghash_mul_reflected (mm_xor y (to_lepoly_128 (m128_load (pad16 data)))) h
  | n + 1, y, data =>
    ghash_clmul_go h n
      (ghash_mul_reflected (mm_xor y (to_lepoly_128 (m128_load (data.take 16)))) h)
      (data.drop 16)

/-- `ghash_update_clmul` (ghash_clmul.c): single-block CLMUL GHASH update;
data is converted spec -> kernel domain on ingress, a trailing partial
block is zero-padded. -/
def ghash_update_clmul (state h_bytes data : List Nat) : List Nat :=
  let y := ghash_clmul_go (m128_load h_bytes) (data.length / 16) (m128_load state) data
  m128_store y

/-- One Karatsuba product of the 8-way loop body (ghash_clmul.c,
`ghash_update_clmul8`): returns `(lo, hi, mid)` for one block/power pair,
where `mid = (a_lo XOR a_hi)*(b_lo XOR b_hi) XOR lo XOR hi`. -/
def karatsuba_triple (c h : M128) : M128 × M128 × M128 :=
  let a_lo_b_lo := mm_clmulepi64 c h 0x00
  let a_hi_b_hi := mm_clmulepi64 c h 0x11
  let a_xor := mm_xor (mm_shuffle_epi32_4E c) c
  let b_xor := mm_xor (mm_shuffle_epi32_4E h) h
  let mid := mm_xor (mm_xor (mm_clmulepi64 a_xor b_xor 0x00) a_lo_b_lo) a_hi_b_hi
  (a_lo_b_lo, a_hi_b_hi, mid)

/-- The body of the `while (len >= 128)` loop of `ghash_update_clmul8`:
8 Karatsuba products against H^8..H^1 accumulated into 4 accumulators
(blocks 2a and 2a+1 go to accumulator a), folded by an XOR tree, the mid
terms folded into (lo, hi), then a single reduction. -/
def ghash_clmul8_batch (Xi : M128) (hpow : List (List Nat)) (data : List Nat) : M128 :=
  let H := fun i => m128_load (hpow.getD (7 - i) zero16)
  let C := fun i => to_lepoly_128 (m128_load ((data.drop (i * 16)).take 16))
  let t := fun i => karatsuba_triple (if i = 0 then mm_xor (C 0) Xi else C i) (H i)
  let acc := fun a => (mm_xor (t (2*a)).1 (t (2*a+1)).1,
                       mm_xor (t (2*a)).2.1 (t (2*a+1)).2.1,
                       mm_xor (t (2*a)).2.2 (t (2*a+1)).2.2)
  let lo := mm_xor (mm_xor (acc 0).1 (acc 1).1) (mm_xor (acc 2).1 (acc 3).1)
  let hi := mm_xor (mm_xor (acc 0).2.1 (acc 1).2.1) (mm_xor (acc 2).2.1 (acc 3).2.1)
  let mid := mm_xor (mm_xor (acc 0).2.2 (acc 1).2.2) (mm_xor (acc 2).2.2 (acc 3).2.2)
  let lo := mm_xor lo (mm_slli_si128_8 mid)
  let hi := mm_xor hi (mm_srli_si128_8 mid)
  ghash_reduce_intel lo hi

/-- The batch loop of `ghash_update_clmul8` by structural recursion on the
number of remaining 128-byte batches, followed by the single-block tail
loop (blocks, then a zero-padded partial block) against H^1. -/
def ghash_clmul8_go (hpow : List (List Nat)) : Nat → M128 → List Nat → M128
  | 0, Xi, data =>
    ghash_clmul_go (m128_load (hpow.getD 0 zero16)) (data.length / 16) Xi data
  | n + 1, Xi, data =>
    ghash_clmul8_go hpow n (ghash_clmul8_batch Xi hpow (data.take 128)) (data.drop 128)

/-- `ghash_update_clmul8` (ghash_clmul.c): 8-way parallel GHASH with
deferred reduction; `hpow` is the H-power table (`h_powers[0..7]` =
H^1..H^8 in kernel domain). -/
def ghash_update_clmul8 (state : List Nat) (hpow : List (List Nat)) (data : List Nat) : List Nat :=
  m128_store (ghash_clmul8_go hpow (data.length / 128) (m128_load state) data)

/-! ## Constant-time utilities (ct_utils.h) -/

/-- `ct_memcmp(a, b, 16)` (ct_utils.h): accumulate byte differences with
OR; 0 exactly when the first 16 bytes agree. -/
def ct_memcmp16 (a b : List Nat) : Nat :=
  (List.range 16).foldl (fun diff i => diff ||| (byt a i ^^^ byt b i)) 0

/-! ## The AES-GCM state machine (dispatch.c, scalar backend)

The dispatch layer is embedded with the fully portable scalar backend
(`backend_aes_scalar` + `ghash_update_scalar`): the build with neither
`__VAES__` nor `__PCLMUL__`, i.e. the `#else` branches of
`soliton_aesgcm_encrypt_update` / `encrypt_final` / `decrypt_final`.
Output buffers are returned as lists; a `none` input models a NULL
pointer, and a `Bool` flag models a NULL output pointer. -/

/-- `soliton_status` (soliton.h). -/
inductive SolitonStatus where
  | ok
  | invalid_input
  | auth_fail
  | unsupported
  | internal_error
deriving DecidableEq, Repr

/-- `aes_state_t` (common.h). -/
inductive AesState where
  | INIT
  | AAD
  | UPDATE
  | FINAL
deriving DecidableEq, Repr

/-- `soliton_aesgcm_ctx` (common.h), the observable fields.  The cached
execution plan is omitted: with the scalar backend it never influences
any output.  `backend_set` models `ctx->backend != NULL`. -/
structure AesGcmCtx where
  round_keys : List Nat
  h : List Nat
  h_powers : List (List Nat)
  j0 : List Nat
  ghash_state : List Nat
  buffer : List Nat
  aad_len : Nat
  ct_len : Nat
  counter : Nat
  buffer_len : Nat
  state : AesState
  h_powers_ready : Bool
  backend_set : Bool
deriving DecidableEq, Repr

/-- The non-96-bit-IV J0 derivation of `soliton_aesgcm_init` (dispatch.c
lines 302-347): GHASH over the full IV blocks, then over a padding buffer
of `total_padding_bytes = (s + 64 + 64)/8` bytes holding the IV remainder
at the front and the 64-bit big-endian bit length written at offset
`total_padding_bytes - 8`. -/
def aesgcm_init_j0_ghash (h1 iv : List Nat) : List Nat :=
  let q := iv.length / 16
  let st := if 0 < q then ghash_update_scalar zero16 h1 (iv.take (q * 16)) else zero16
  let r := iv.length % 16
  let len_bits := iv.length * 8
  let s := 128 * ((len_bits + 127) / 128) - len_bits
  let tpb := (s + 64 + 64) / 8
  let padding0 := (iv.drop (q * 16)).take r ++ List.replicate (64 - r) 0
  let padding := padding0.take (tpb - 8) ++ soliton_put_be64 (u64 len_bits) ++ padding0.drop tpb
  ghash_update_scalar st h1 (padding.take tpb)

/-- The non-96-bit-IV J0 derivation of `soliton_aesgcm_reset` (dispatch.c
lines 405-447): GHASH over the full IV blocks, then over a single final
block holding the IV remainder at the front and the 64-bit big-endian bit
length in bytes 8..15. -/
def aesgcm_reset_j0_ghash (h1 iv : List Nat) : List Nat :=
  let q := iv.length / 16
  let st := if 0 < q then ghash_update_scalar zero16 h1 (iv.take (q * 16)) else zero16
  let r := iv.length % 16
  let len_bits := iv.length * 8
  let fb0 := (iv.drop (q * 16)).take r ++ List.replicate (16 - r) 0
  let fb := fb0.take 8 ++ soliton_put_be64 (u64 len_bits)
  ghash_update_scalar st h1 fb

/-- The J0 block for a 96-bit IV: `IV || 0 0 0 1`. -/
def aesgcm_j0_96 (iv : List Nat) : List Nat := iv.take 12 ++ [0, 0, 0, 1]

/-- The successful body of `soliton_aesgcm_init` (dispatch.c): expand the
key, derive H = AES_K(0), precompute the H powers eagerly, set J0, and
reset all message state.  Every field of the resulting context is
overwritten, so the prior context does not appear. -/
def aesgcm_init_core (key iv : List Nat) : AesGcmCtx :=
  let rk := aes256_key_expand_scalar key
  let h := aes256_encrypt_block_scalar rk zero16
  let hp := ghash_precompute_powers_scalar h
  let j0 := if iv.length = 12 then aesgcm_j0_96 iv
            else aesgcm_init_j0_ghash (hp.getD 0 zero16) iv
  { round_keys := rk, h := h, h_powers := hp, j0 := j0, ghash_state := zero16,
    buffer := zero16, aad_len := 0, ct_len := 0, counter := 2, buffer_len := 0,
    state := .INIT, h_powers_ready := true, backend_set := true }

/-- `soliton_aesgcm_init` (dispatch.c): validate, then rebuild the context. -/
def soliton_aesgcm_init (ctx : AesGcmCtx) (key iv : Option (List Nat)) :
    SolitonStatus × AesGcmCtx :=
  match key, iv with
  | some key, some iv =>
    if iv.length = 0 then (.invalid_input, ctx)
    else (.ok, aesgcm_init_core key iv)
  | _, _ => (.invalid_input, ctx)

/-- `soliton_aesgcm_reset` (dispatch.c): reuse round keys and H powers,
derive J0 for the new IV, reset message state.  The state tag is NOT
checked, so reset also succeeds on a FINAL context. -/
def soliton_aesgcm_reset (ctx : AesGcmCtx) (iv : Option (List Nat)) :
    SolitonStatus × AesGcmCtx :=
  match iv with
  | none => (.invalid_input, ctx)
  | some iv =>
    if iv.length = 0 then (.invalid_input, ctx)
    else if ctx.backend_set = false then (.invalid_input, ctx)
    else
      let j0 := if iv.length = 12 then aesgcm_j0_96 iv
                else aesgcm_reset_j0_ghash (ctx.h_powers.getD 0 zero16) iv
      (.ok, { ctx with
              ghash_state := zero16
              buffer := zero16
              aad_len := 0
              ct_len := 0
              buffer_len := 0
              j0 := j0
              counter := 2
              state := .INIT })

/-- `soliton_aesgcm_aad_update` (dispatch.c): allowed in states INIT and
AAD; folds the AAD into GHASH with H^1 and counts its bytes. -/
def soliton_aesgcm_aad_update (ctx : AesGcmCtx) (aad : Option (List Nat)) (len : Nat) :
    SolitonStatus × AesGcmCtx :=
  if aad = none ∧ 0 < len then (.invalid_input, ctx)
  else if ctx.state ≠ .INIT ∧ ctx.state ≠ .AAD then (.invalid_input, ctx)
  else
    let data := (aad.getD []).take len
    (.ok, { ctx with
            state := .AAD
            aad_len := u64 (ctx.aad_len + len)
            ghash_state := ghash_update_scalar ctx.ghash_state (ctx.h_powers.getD 0 zero16) data })

/-- The batch loop of `soliton_aesgcm_encrypt_update` (dispatch.c, scalar
branch): per 8-block batch, CTR-encrypt then immediately fold the
ciphertext into GHASH; the 32-bit counter advances by 8 per batch.
Returns (ciphertext, ghash state, counter). -/
def enc_batches_go (rk j0 h1 : List Nat) : Nat → Nat → List Nat → List Nat →
    List Nat × List Nat × Nat
  | 0, ctr, st, _ => ([], st, ctr)
  | n + 1, ctr, st, pts =>
    let ctb := aes256_ctr_blocks_scalar rk j0 ctr (pts.take 128) 8
    let st' := ghash_update_scalar st h1 ctb
    let rest := enc_batches_go rk j0 h1 n (u32 (ctr + 8)) st' (pts.drop 128)
    (ctb ++ rest.1, rest.2.1, rest.2.2)

/-- `soliton_aesgcm_encrypt_update` (dispatch.c, scalar branch): validate;
lazily ensure H powers; process full 8-block batches, then the tail
blocks, then a trailing partial block (zero-padded into GHASH, counter
consumed).  `ct_null` models a NULL ciphertext output pointer; the
produced ciphertext is returned as a list. -/
def soliton_aesgcm_encrypt_update (ctx : AesGcmCtx) (pt : Option (List Nat))
    (ct_null : Bool) (len : Nat) : SolitonStatus × List Nat × AesGcmCtx :=
  if (pt = none ∧ 0 < len) ∨ (ct_null ∧ 0 < len) then (.invalid_input, [], ctx)
  else if ctx.state = .FINAL then (.invalid_input, [], ctx)
  else
    let hp := if ctx.h_powers_ready then ctx.h_powers else ghash_precompute_powers_scalar ctx.h
    let h1 := hp.getD 0 zero16
    let data := (pt.getD []).take len
    let blocks := len / 16
    let rem := len % 16
    let fb := blocks / 8
    let tail := blocks % 8
    let b := enc_batches_go ctx.round_keys ctx.j0 h1 fb ctx.counter ctx.ghash_state (data.take (fb * 128))
    let tail_ct := aes256_ctr_blocks_scalar ctx.round_keys ctx.j0 b.2.2 ((data.drop (fb * 128)).take (tail * 16)) tail
    let st2 := if 0 < tail then ghash_update_scalar b.2.1 h1 tail_ct else b.2.1
    let ctr2 := if 0 < tail then u32 (b.2.2 + tail) else b.2.2
    let ks := aes256_encrypt_block_scalar ctx.round_keys (ctr_block ctx.j0 ctr2)
    let ct_rem := if 0 < rem then List.zipWith Nat.xor (data.drop (blocks * 16)) ks else []
    let st3 := if 0 < rem then ghash_update_scalar st2 h1 ct_rem else st2
    let ctr3 := if 0 < rem then u32 (ctr2 + 1) else ctr2
    (.ok, b.1 ++ tail_ct ++ ct_rem,
     { ctx with
       state := .UPDATE
       ct_len := u64 (ctx.ct_len + len)
       counter := ctr3
       ghash_state := st3
       h_powers := hp
       h_powers_ready := true })

/-- `soliton_aesgcm_decrypt_update` (dispatch.c): validate; fold the
ciphertext into GHASH first (one call over the whole input, partial block
zero-padded), then CTR-decrypt the full blocks in one batch and the
trailing partial block with a fresh keystream block. -/
def soliton_aesgcm_decrypt_update (ctx : AesGcmCtx) (ct : Option (List Nat))
    (pt_null : Bool) (len : Nat) : SolitonStatus × List Nat × AesGcmCtx :=
  if (ct = none ∧ 0 < len) ∨ (pt_null ∧ 0 < len) then (.invalid_input, [], ctx)
  else if ctx.state = .FINAL then (.invalid_input, [], ctx)
  else
    let h1 := ctx.h_powers.getD 0 zero16
    let data := (ct.getD []).take len
    let st' := ghash_update_scalar ctx.ghash_state h1 data
    let blocks := len / 16
    let rem := len % 16
    let pt_full := aes256_ctr_blocks_scalar ctx.round_keys ctx.j0 ctx.counter (data.take (blocks * 16)) blocks
    let ctr1 := if 0 < blocks then u32 (ctx.counter + blocks) else ctx.counter
    let ks := aes256_encrypt_block_scalar ctx.round_keys (ctr_block ctx.j0 ctr1)
    let pt_rem := if 0 < rem then List.zipWith Nat.xor (data.drop (blocks * 16)) ks else []
    let ctr2 := if 0 < rem then u32 (ctr1 + 1) else ctr1
    (.ok, pt_full ++ pt_rem,
     { ctx with
       state := .UPDATE
       ct_len := u64 (ctx.ct_len + len)
       ghash_state := st'
       counter := ctr2 })

/-- The tag computation shared by `soliton_aesgcm_encrypt_final` and
`soliton_aesgcm_decrypt_final` (dispatch.c): finalize GHASH with the
length block, then XOR with `AES_K(J0[0..11] || 1)`. -/
def aesgcm_compute_tag (ctx : AesGcmCtx) : List Nat :=
  let tag0 := ghash_final_scalar ctx.ghash_state (ctx.h_powers.getD 0 zero16) ctx.aad_len ctx.ct_len
  let e := aes256_encrypt_block_scalar ctx.round_keys (ctr_block ctx.j0 1)
  List.zipWith Nat.xor tag0 e

/-- `soliton_aesgcm_encrypt_final` (dispatch.c): write the tag, move to
FINAL.  `tag_null` models a NULL tag output pointer. -/
def soliton_aesgcm_encrypt_final (ctx : AesGcmCtx) (tag_null : Bool) :
    SolitonStatus × List Nat × AesGcmCtx :=
  if tag_null then (.invalid_input, [], ctx)
  else if ctx.state = .FINAL then (.invalid_input, [], ctx)
  else (.ok, aesgcm_compute_tag ctx, { ctx with state := .FINAL })

/-- `soliton_aesgcm_decrypt_final` (dispatch.c): recompute the tag,
compare constant-time, move to FINAL in both outcomes; `ok` exactly when
the accumulated OR of byte differences is zero. -/
def soliton_aesgcm_decrypt_final (ctx : AesGcmCtx) (tag : Option (List Nat)) :
    SolitonStatus × AesGcmCtx :=
  match tag with
  | none => (.invalid_input, ctx)
  | some tag =>
    if ctx.state = .FINAL then (.invalid_input, ctx)
    else
      let valid := ct_memcmp16 (aesgcm_compute_tag ctx) tag
      (if valid = 0 then .ok else .auth_fail, { ctx with state := .FINAL })

/-- A fresh caller-allocated context before `init` (contents arbitrary;
`init` overwrites every field). -/
def aesgcm_fresh : AesGcmCtx :=
  { round_keys := [], h := zero16, h_powers := [], j0 := zero16, ghash_state := zero16,
    buffer := zero16, aad_len := 0, ct_len := 0, counter := 0, buffer_len := 0,
    state := .INIT, h_powers_ready := false, backend_set := false }

/-! ## Concrete values used by the evaluation theorems -/

/-- The 16-byte spec-domain encoding of the 128-bit value 1. -/
def one_block : List Nat := List.replicate 15 0 ++ [1]

/-- The Gate A commuting diagram applied to two spec-domain blocks:
byte-reverse in, `ghash_mul_reflected`, byte-reverse out (the composite
the source's correctness invariant equates with `gf128_mul`). -/
def gateA_reflected_side (x h : List Nat) : List Nat :=
  m128_store (from_lepoly_128
    (ghash_mul_reflected (to_lepoly_128 (m128_load x)) (to_lepoly_128 (m128_load h))))

/-- The spec side of Gate A: `gf128_mul` on the same two blocks. -/
def gateA_spec_side (x h : List Nat) : List Nat :=
  let xv := ghash_load_block x
  let hv := ghash_load_block h
  let r := gf128_mul xv.1 xv.2 hv.1 hv.2
  ghash_store_block r.1 r.2

/-- Eight successive single-block `ghash_update_clmul` updates over a
128-byte input, with H^1 = `h_powers[0]`, exactly as the sequential side
of Gate D runs them. -/
def ghash_clmul_seq8 (state h1 data : List Nat) : List Nat :=
  (List.range 8).foldl
    (fun st i => ghash_update_clmul st h1 ((data.drop (i * 16)).take 16)) state

/-- C5 evaluation witness values: H-power table derived (by the source's
own `ghash_precompute_h_powers_clmul`) from the spec-domain H = bytes
0x00..0x0F. -/
def c5_table : List (List Nat) := ghash_precompute_h_powers_clmul (List.range 16)

/-- The all-zero 32-byte key. -/
def key0 : List Nat := List.replicate 32 0

/-- An all-zero 12-byte IV. -/
def iv12z : List Nat := List.replicate 12 0

/-- An all-zero 8-byte IV (a non-96-bit length, not a multiple of 16). -/
def iv8z : List Nat := List.replicate 8 0

/-- The 60 expanded round-key words for `key0`. -/
def rk0 : List Nat :=
  [0x0,0x0,0x0,0x0,0x0,0x0,0x0,0x0,0x63636362,0x63636362,0x63636362,0x63636362,
   0xfbfbfbaa,0xfbfbfbaa,0xfbfbfbaa,0xfbfbfbaa,0xcf6c6c6f,0xac0f0f0d,0xcf6c6c6f,0xac0f0f0d,
   0x6a8d8d7d,0x917676d7,0x6a8d8d7d,0x917676d7,0xc1ed5453,0x6de25b5e,0xa28e3731,0xe81383c,
   0xc1818a96,0x50f7fc41,0x3a7a713c,0xab0c07eb,0x288faa9e,0x456df1c0,0xe7e3c6f1,0xe962fecd,
   0xdf2b312b,0x8fdccd6a,0xb5a6bc56,0x1eaabbbd,0x52fd0664,0x1790f7a4,0xf0733155,0x1911cf98,
   0xba9bb6d,0x84757607,0x31d3ca51,0x2f7971ec,0x9ce8b0e7,0x8b784743,0x7b0b7616,0x621ab98e,
   0xa10bed74,0x257e9b73,0x14ad5122,0x3bd420ce,0x170af810,0x9c72bf53,0xe779c945,0x856370cb]

/-- H = AES_key0(0). -/
def h0 : List Nat :=
  [0xdc,0x95,0xc0,0x78,0xa2,0x40,0x89,0x89,0xad,0x48,0xa2,0x14,0x92,0x84,0x20,0x87]

/-- J0 produced by the init path for `iv8z`. -/
def j0_init8 : List Nat :=
  [0xde,0x25,0x6f,0xeb,0x21,0x18,0x52,0x49,0x4a,0xe0,0x3c,0x51,0x20,0x44,0xc4,0xd6]

/-- J0 produced by the reset path for `iv8z`. -/
def j0_reset8 : List Nat :=
  [0x7d,0xbd,0xed,0x15,0x5a,0x37,0x1e,0x01,0xf2,0x25,0x6f,0xeb,0x21,0x18,0x52,0x49]

/-- J0 for `iv8z` according to the NIST SP 800-38D formula. -/
def j0_nist8 : List Nat :=
  [0x7d,0xbd,0xed,0x15,0x5a,0x37,0x1e,0x01,0xf2,0x25,0x6f,0xeb,0x21,0x18,0x52,0x49]

/-- The J0 derivation for a non-96-bit IV as the specification states it
(NIST SP 800-38D section 7.1): GHASH under H of the IV zero-padded to a
128-bit boundary, then 64 more zero bits, then the 64-bit big-endian bit
length of the IV, so that the whole input is a positive multiple of 16
bytes with the length field in the last 8 bytes of the final block. -/
def j0_nist_spec (h iv : List Nat) : List Nat :=
  let s_bytes := (16 - iv.length % 16) % 16
  ghash_update_scalar zero16 h
    (iv ++ List.replicate s_bytes 0 ++ List.replicate 8 0 ++ soliton_put_be64 (u64 (iv.length * 8)))

/-- `E_key0(j0_reset8[0..11] || 1)`. -/
def e_reset8 : List Nat :=
  [0x44,0xdb,0x75,0xb5,0x30,0x68,0xc4,0xd0,0xba,0xb6,0x6f,0x96,0x51,0x8f,0x1a,0x7e]

/-- `E_key0(j0_init8[0..11] || 1)`. -/
def e_init8 : List Nat :=
  [0xae,0x7b,0x1c,0x3b,0x71,0x0a,0x06,0x08,0xb6,0xc1,0x2d,0xa6,0x45,0x13,0xb0,0x39]

/-- The tag for msg2 = empty obtained by: init(key0, IV1 = 12 zero bytes),
encrypt msg1 = empty, final, then reset(IV2 = 8 zero bytes) and encrypt
msg2 = empty to final (scenario 6 of the spec, second message via reset). -/
def c4_tag_via_reset : List Nat :=
  let c1 := (soliton_aesgcm_init aesgcm_fresh (some key0) (some iv12z)).2
  let c2 := (soliton_aesgcm_encrypt_update c1 (some []) false 0).2.2
  let c3 := (soliton_aesgcm_encrypt_final c2 false).2.2
  let c4 := (soliton_aesgcm_reset c3 (some iv8z)).2
  let c5 := (soliton_aesgcm_encrypt_update c4 (some []) false 0).2.2
  (soliton_aesgcm_encrypt_final c5 false).2.1

/-- The tag for the same msg2 = empty from a fresh init(key0, IV2). -/
def c4_tag_fresh : List Nat :=
  let c1 := (soliton_aesgcm_init aesgcm_fresh (some key0) (some iv8z)).2
  let c2 := (soliton_aesgcm_encrypt_update c1 (some []) false 0).2.2
  (soliton_aesgcm_encrypt_final c2 false).2.1

/-- The counter value after processing `n` full blocks: untouched when
`n = 0` (the source only writes the counter inside the corresponding
loop or branch), else the wrapped 32-bit sum (`ctx->counter += n`). -/
def ctr_after (ctr n : Nat) : Nat := if n = 0 then ctr else u32 (ctr + n)

/-- The canonical CTR transform both update directions compute: the full
blocks through `aes256_ctr_blocks_scalar` starting at `ctr`, then the
trailing partial block XORed with the keystream block at the advanced
counter.  (For an input whose length is a multiple of 16 the second part
is empty.) -/
def gcm_ct (rk j0 : List Nat) (ctr : Nat) (data : List Nat) : List Nat :=
  let blocks := data.length / 16
  aes256_ctr_blocks_scalar rk j0 ctr (data.take (blocks * 16)) blocks ++
    List.zipWith Nat.xor (data.drop (blocks * 16))
      (aes256_encrypt_block_scalar rk (ctr_block j0 (ctr_after ctr blocks)))

/-- The context counter after an update call over `len` bytes: advanced
by one more block when a partial block was consumed. -/
def gcm_ctr_final (ctr len : Nat) : Nat :=
  if len % 16 = 0 then ctr_after ctr (len / 16) else u32 (ctr_after ctr (len / 16) + 1)

/-- The caller-visible encryption sequence of C1: fresh context, init,
one aad_update, one encrypt_update, encrypt_final.  Result:
(init status, aad status, update status, final status, ciphertext, tag). -/
def gcm_encrypt_seq (key iv aad pt : List Nat) :
    SolitonStatus × SolitonStatus × SolitonStatus × SolitonStatus × List Nat × List Nat :=
  let e1 := soliton_aesgcm_init aesgcm_fresh (some key) (some iv)
  let e2 := soliton_aesgcm_aad_update e1.2 (some aad) aad.length
  let e3 := soliton_aesgcm_encrypt_update e2.2 (some pt) false pt.length
  let e4 := soliton_aesgcm_encrypt_final e3.2.2 false
  (e1.1, e2.1, e3.1, e4.1, e3.2.1, e4.2.1)

/-- The caller-visible decryption sequence of C1: fresh context, init,
one aad_update, one decrypt_update over the ciphertext, decrypt_final
with the supplied tag.  Result: (init status, aad status, update status,
recovered plaintext, final status). -/
def gcm_decrypt_seq (key iv aad ct tag : List Nat) :
    SolitonStatus × SolitonStatus × SolitonStatus × List Nat × SolitonStatus :=
  let d1 := soliton_aesgcm_init aesgcm_fresh (some key) (some iv)
  let d2 := soliton_aesgcm_aad_update d1.2 (some aad) aad.length
  let d3 := soliton_aesgcm_decrypt_update d2.2 (some ct) false ct.length
  let d4 := soliton_aesgcm_decrypt_final d3.2.2 (some tag)
  (d1.1, d2.1, d3.1, d3.2.1, d4.1)

/-- J0 for the all-zero 96-bit IV: IV || 0x00000001. -/
def j0z : List Nat := [0, 0, 0, 0, 0, 0, 0, 0, 0, 0, 0, 0, 0, 0, 0, 1]

/-- AES-256 keystream block for `key0`/`iv12z` at counter word 2 (the
first data block of the session). -/
def ks2 : List Nat :=
  [0xce, 0xa7, 0x40, 0x3d, 0x4d, 0x60, 0x6b, 0x6e,
   0x07, 0x4e, 0xc5, 0xd3, 0xba, 0xf3, 0x9d, 0x18]

/-- AES-256 keystream block for `key0`/`iv12z` at counter word 3 (the
second data block of the session). -/
def ks3 : List Nat :=
  [0x72, 0x60, 0x03, 0xca, 0x37, 0xa6, 0x2a, 0x74,
   0xd1, 0xa2, 0xf5, 0x8e, 0x75, 0x06, 0x35, 0x8e]

/-! # Theorems -/

/-- `aes256_encrypt_block_scalar` written with the named round body, for
staging the per-round evaluations of the concrete blocks. -/
theorem aes_block_rounds (rk inp : List Nat) :
    aes256_encrypt_block_scalar rk inp =
      (aes_add_round_key
        (aes_shift_rows
          (((List.range' 1 13).foldl (aes_round rk)
              (aes_add_round_key ((List.range 4).map fun i => soliton_le32 (inp.drop (i * 4)))
                rk 0)).map aes_sbox_word))
        rk (14 * 4)).flatMap soliton_put_le32 := rfl

/-- C2.  The Gate A commuting diagram fails on the code: already at
X = H = 1 (and in fact on essentially all inputs), converting to the
reflected domain, multiplying with `ghash_mul_reflected`, and converting
back does NOT give `gf128_mul`.  The reducer `ghash_reduce_intel` is not
a correct reduction for the byte-reversed-only domain once the source
removed the "multiply H by x" setkey preprocessing, so the CLMUL multiply
disagrees with the scalar spec multiply everywhere it matters. -/
theorem gateA_commute_fails_at_one :
    gateA_reflected_side one_block one_block ≠ gateA_spec_side one_block one_block := by
  decide

theorem h_powers_go_add (h : M128) : ∀ (a b : Nat) (hp : M128),
    ghash_h_powers_go h (a + b) hp =
      ghash_h_powers_go h a hp ++ ghash_h_powers_go h b (hp_iter h a hp)
  | 0, b, hp => by
    simp only [Nat.zero_add, ghash_h_powers_go, hp_iter, List.nil_append]
  | a + 1, b, hp => by
    rw [show a + 1 + b = (a + b) + 1 from by omega]
    simp only [ghash_h_powers_go]
    rw [h_powers_go_add h a b (ghash_mul_reflected hp h)]
    simp only [hp_iter, List.cons_append]

theorem c5_hkern : to_lepoly_128 (m128_load (List.range 16)) = (⟨579005069656919567, 283686952306183⟩ : M128) := by decide

theorem c5_iter7 : hp_iter (⟨579005069656919567, 283686952306183⟩ : M128) 7 (⟨579005069656919567, 283686952306183⟩ : M128) = (⟨15251310687678896424, 7162258203249624867⟩ : M128) := by decide

theorem c5_go7 : ghash_h_powers_go (⟨579005069656919567, 283686952306183⟩ : M128) 7 (⟨579005069656919567, 283686952306183⟩ : M128) =
    [[190, 10, 56, 10, 166, 8, 32, 8, 32, 8, 32, 8, 32, 8, 32, 8],
    [134, 45, 238, 162, 195, 104, 5, 15, 198, 79, 176, 123, 74, 64, 1, 15],
    [32, 191, 222, 202, 68, 71, 233, 139, 214, 53, 108, 216, 174, 234, 238, 139],
    [70, 237, 3, 72, 252, 38, 166, 36, 12, 170, 105, 233, 95, 128, 4, 192],
    [38, 166, 100, 46, 1, 41, 75, 136, 220, 251, 45, 151, 212, 66, 5, 164],
    [90, 57, 37, 80, 217, 88, 221, 189, 177, 99, 190, 188, 125, 125, 208, 225],
    [40, 25, 56, 250, 67, 138, 167, 211, 35, 71, 82, 122, 227, 115, 101, 99]] := by decide

theorem c5_go8 : ghash_h_powers_go (⟨579005069656919567, 283686952306183⟩ : M128) 8 (⟨15251310687678896424, 7162258203249624867⟩ : M128) =
    [[98, 175, 140, 113, 56, 216, 23, 229, 230, 158, 82, 8, 216, 228, 131, 65],
    [211, 167, 161, 211, 121, 197, 64, 114, 125, 195, 86, 174, 158, 52, 150, 133],
    [248, 225, 111, 219, 143, 56, 201, 179, 79, 24, 129, 53, 53, 214, 51, 8],
    [236, 237, 223, 38, 119, 171, 78, 199, 52, 171, 136, 254, 176, 80, 144, 29],
    [222, 11, 157, 30, 137, 234, 139, 49, 166, 230, 133, 202, 144, 59, 204, 120],
    [68, 48, 171, 186, 209, 15, 37, 142, 8, 49, 55, 21, 54, 253, 228, 114],
    [217, 26, 167, 25, 17, 193, 32, 118, 200, 161, 68, 114, 119, 95, 170, 196],
    [118, 20, 160, 140, 179, 119, 153, 210, 213, 110, 99, 150, 75, 111, 238, 197]] := by decide

theorem c5_table_eval : c5_table =
    [[15, 14, 13, 12, 11, 10, 9, 8, 7, 6, 5, 4, 3, 2, 1, 0],
    [190, 10, 56, 10, 166, 8, 32, 8, 32, 8, 32, 8, 32, 8, 32, 8],
    [134, 45, 238, 162, 195, 104, 5, 15, 198, 79, 176, 123, 74, 64, 1, 15],
    [32, 191, 222, 202, 68, 71, 233, 139, 214, 53, 108, 216, 174, 234, 238, 139],
    [70, 237, 3, 72, 252, 38, 166, 36, 12, 170, 105, 233, 95, 128, 4, 192],
    [38, 166, 100, 46, 1, 41, 75, 136, 220, 251, 45, 151, 212, 66, 5, 164],
    [90, 57, 37, 80, 217, 88, 221, 189, 177, 99, 190, 188, 125, 125, 208, 225],
    [40, 25, 56, 250, 67, 138, 167, 211, 35, 71, 82, 122, 227, 115, 101, 99],
    [98, 175, 140, 113, 56, 216, 23, 229, 230, 158, 82, 8, 216, 228, 131, 65],
    [211, 167, 161, 211, 121, 197, 64, 114, 125, 195, 86, 174, 158, 52, 150, 133],
    [248, 225, 111, 219, 143, 56, 201, 179, 79, 24, 129, 53, 53, 214, 51, 8],
    [236, 237, 223, 38, 119, 171, 78, 199, 52, 171, 136, 254, 176, 80, 144, 29],
    [222, 11, 157, 30, 137, 234, 139, 49, 166, 230, 133, 202, 144, 59, 204, 120],
    [68, 48, 171, 186, 209, 15, 37, 142, 8, 49, 55, 21, 54, 253, 228, 114],
    [217, 26, 167, 25, 17, 193, 32, 118, 200, 161, 68, 114, 119, 95, 170, 196],
    [118, 20, 160, 140, 179, 119, 153, 210, 213, 110, 99, 150, 75, 111, 238, 197]] := by
  simp only [c5_table, ghash_precompute_h_powers_clmul, ghash_setkey_preprocess]
  rw [c5_hkern]
  rw [show ghash_h_powers_go (⟨579005069656919567, 283686952306183⟩ : M128) 15 (⟨579005069656919567, 283686952306183⟩ : M128) =
      ghash_h_powers_go (⟨579005069656919567, 283686952306183⟩ : M128) (7 + 8) (⟨579005069656919567, 283686952306183⟩ : M128) from rfl]
  rw [h_powers_go_add]
  rw [c5_iter7, c5_go7, c5_go8]
  decide

theorem gd_t0 :
    karatsuba_triple
      (mm_xor (to_lepoly_128 (m128_load ((((List.range 128).take 128).drop 0).take 16)))
        (m128_load zero16))
      (m128_load (List.getD
        [[15, 14, 13, 12, 11, 10, 9, 8, 7, 6, 5, 4, 3, 2, 1, 0],
    [190, 10, 56, 10, 166, 8, 32, 8, 32, 8, 32, 8, 32, 8, 32, 8],
    [134, 45, 238, 162, 195, 104, 5, 15, 198, 79, 176, 123, 74, 64, 1, 15],
    [32, 191, 222, 202, 68, 71, 233, 139, 214, 53, 108, 216, 174, 234, 238, 139],
    [70, 237, 3, 72, 252, 38, 166, 36, 12, 170, 105, 233, 95, 128, 4, 192],
    [38, 166, 100, 46, 1, 41, 75, 136, 220, 251, 45, 151, 212, 66, 5, 164],
    [90, 57, 37, 80, 217, 88, 221, 189, 177, 99, 190, 188, 125, 125, 208, 225],
    [40, 25, 56, 250, 67, 138, 167, 211, 35, 71, 82, 122, 227, 115, 101, 99],
    [98, 175, 140, 113, 56, 216, 23, 229, 230, 158, 82, 8, 216, 228, 131, 65],
    [211, 167, 161, 211, 121, 197, 64, 114, 125, 195, 86, 174, 158, 52, 150, 133],
    [248, 225, 111, 219, 143, 56, 201, 179, 79, 24, 129, 53, 53, 214, 51, 8],
    [236, 237, 223, 38, 119, 171, 78, 199, 52, 171, 136, 254, 176, 80, 144, 29],
    [222, 11, 157, 30, 137, 234, 139, 49, 166, 230, 133, 202, 144, 59, 204, 120],
    [68, 48, 171, 186, 209, 15, 37, 142, 8, 49, 55, 21, 54, 253, 228, 114],
    [217, 26, 167, 25, 17, 193, 32, 118, 200, 161, 68, 114, 119, 95, 170, 196],
    [118, 20, 160, 140, 179, 119, 153, 210, 213, 110, 99, 150, 75, 111, 238, 197]]
        7 zero16)) =
      (⟨6076591285395732120, 476103877939763649⟩, ⟨3156537180122390505, 109552219935478⟩, ⟨16050009654855958825, 223071178610198475⟩) := by decide

theorem gd_t1 :
    karatsuba_triple
      (to_lepoly_128 (m128_load ((((List.range 128).take 128).drop 16).take 16)))
      (m128_load (List.getD
        [[15, 14, 13, 12, 11, 10, 9, 8, 7, 6, 5, 4, 3, 2, 1, 0],
    [190, 10, 56, 10, 166, 8, 32, 8, 32, 8, 32, 8, 32, 8, 32, 8],
    [134, 45, 238, 162, 195, 104, 5, 15, 198, 79, 176, 123, 74, 64, 1, 15],
    [32, 191, 222, 202, 68, 71, 233, 139, 214, 53, 108, 216, 174, 234, 238, 139],
    [70, 237, 3, 72, 252, 38, 166, 36, 12, 170, 105, 233, 95, 128, 4, 192],
    [38, 166, 100, 46, 1, 41, 75, 136, 220, 251, 45, 151, 212, 66, 5, 164],
    [90, 57, 37, 80, 217, 88, 221, 189, 177, 99, 190, 188, 125, 125, 208, 225],
    [40, 25, 56, 250, 67, 138, 167, 211, 35, 71, 82, 122, 227, 115, 101, 99],
    [98, 175, 140, 113, 56, 216, 23, 229, 230, 158, 82, 8, 216, 228, 131, 65],
    [211, 167, 161, 211, 121, 197, 64, 114, 125, 195, 86, 174, 158, 52, 150, 133],
    [248, 225, 111, 219, 143, 56, 201, 179, 79, 24, 129, 53, 53, 214, 51, 8],
    [236, 237, 223, 38, 119, 171, 78, 199, 52, 171, 136, 254, 176, 80, 144, 29],
    [222, 11, 157, 30, 137, 234, 139, 49, 166, 230, 133, 202, 144, 59, 204, 120],
    [68, 48, 171, 186, 209, 15, 37, 142, 8, 49, 55, 21, 54, 253, 228, 114],
    [217, 26, 167, 25, 17, 193, 32, 118, 200, 161, 68, 114, 119, 95, 170, 196],
    [118, 20, 160, 140, 179, 119, 153, 210, 213, 110, 99, 150, 75, 111, 238, 197]]
        6 zero16)) =
      (⟨17115619071909125622, 1026186220334471194⟩, ⟨17365321871579064071, 1014423523409580141⟩, ⟨12622142762256725417, 201748947627816863⟩) := by decide

theorem gd_t2 :
    karatsuba_triple
      (to_lepoly_128 (m128_load ((((List.range 128).take 128).drop 32).take 16)))
      (m128_load (List.getD
        [[15, 14, 13, 12, 11, 10, 9, 8, 7, 6, 5, 4, 3, 2, 1, 0],
    [190, 10, 56, 10, 166, 8, 32, 8, 32, 8, 32, 8, 32, 8, 32, 8],
    [134, 45, 238, 162, 195, 104, 5, 15, 198, 79, 176, 123, 74, 64, 1, 15],
    [32, 191, 222, 202, 68, 71, 233, 139, 214, 53, 108, 216, 174, 234, 238, 139],
    [70, 237, 3, 72, 252, 38, 166, 36, 12, 170, 105, 233, 95, 128, 4, 192],
    [38, 166, 100, 46, 1, 41, 75, 136, 220, 251, 45, 151, 212, 66, 5, 164],
    [90, 57, 37, 80, 217, 88, 221, 189, 177, 99, 190, 188, 125, 125, 208, 225],
    [40, 25, 56, 250, 67, 138, 167, 211, 35, 71, 82, 122, 227, 115, 101, 99],
    [98, 175, 140, 113, 56, 216, 23, 229, 230, 158, 82, 8, 216, 228, 131, 65],
    [211, 167, 161, 211, 121, 197, 64, 114, 125, 195, 86, 174, 158, 52, 150, 133],
    [248, 225, 111, 219, 143, 56, 201, 179, 79, 24, 129, 53, 53, 214, 51, 8],
    [236, 237, 223, 38, 119, 171, 78, 199, 52, 171, 136, 254, 176, 80, 144, 29],
    [222, 11, 157, 30, 137, 234, 139, 49, 166, 230, 133, 202, 144, 59, 204, 120],
    [68, 48, 171, 186, 209, 15, 37, 142, 8, 49, 55, 21, 54, 253, 228, 114],
    [217, 26, 167, 25, 17, 193, 32, 118, 200, 161, 68, 114, 119, 95, 170, 196],
    [118, 20, 160, 140, 179, 119, 153, 210, 213, 110, 99, 150, 75, 111, 238, 197]]
        5 zero16)) =
      (⟨12614360185371206402, 1539926851491002647⟩, ⟨2365118229953761428, 1482978584369657195⟩, ⟨15195971616034344006, 47677249540911088⟩) := by decide

theorem gd_t3 :
    karatsuba_triple
      (to_lepoly_128 (m128_load ((((List.range 128).take 128).drop 48).take 16)))
      (m128_load (List.getD
        [[15, 14, 13, 12, 11, 10, 9, 8, 7, 6, 5, 4, 3, 2, 1, 0],
    [190, 10, 56, 10, 166, 8, 32, 8, 32, 8, 32, 8, 32, 8, 32, 8],
    [134, 45, 238, 162, 195, 104, 5, 15, 198, 79, 176, 123, 74, 64, 1, 15],
    [32, 191, 222, 202, 68, 71, 233, 139, 214, 53, 108, 216, 174, 234, 238, 139],
    [70, 237, 3, 72, 252, 38, 166, 36, 12, 170, 105, 233, 95, 128, 4, 192],
    [38, 166, 100, 46, 1, 41, 75, 136, 220, 251, 45, 151, 212, 66, 5, 164],
    [90, 57, 37, 80, 217, 88, 221, 189, 177, 99, 190, 188, 125, 125, 208, 225],
    [40, 25, 56, 250, 67, 138, 167, 211, 35, 71, 82, 122, 227, 115, 101, 99],
    [98, 175, 140, 113, 56, 216, 23, 229, 230, 158, 82, 8, 216, 228, 131, 65],
    [211, 167, 161, 211, 121, 197, 64, 114, 125, 195, 86, 174, 158, 52, 150, 133],
    [248, 225, 111, 219, 143, 56, 201, 179, 79, 24, 129, 53, 53, 214, 51, 8],
    [236, 237, 223, 38, 119, 171, 78, 199, 52, 171, 136, 254, 176, 80, 144, 29],
    [222, 11, 157, 30, 137, 234, 139, 49, 166, 230, 133, 202, 144, 59, 204, 120],
    [68, 48, 171, 186, 209, 15, 37, 142, 8, 49, 55, 21, 54, 253, 228, 114],
    [217, 26, 167, 25, 17, 193, 32, 118, 200, 161, 68, 114, 119, 95, 170, 196],
    [118, 20, 160, 140, 179, 119, 153, 210, 213, 110, 99, 150, 75, 111, 238, 197]]
        4 zero16)) =
      (⟨843324884500123714, 575421727845788192⟩, ⟨9735081644986130276, 1446795979074032634⟩, ⟨12079772957800015222, 1498138770912165798⟩) := by decide

theorem gd_t4 :
    karatsuba_triple
      (to_lepoly_128 (m128_load ((((List.range 128).take 128).drop 64).take 16)))
      (m128_load (List.getD
        [[15, 14, 13, 12, 11, 10, 9, 8, 7, 6, 5, 4, 3, 2, 1, 0],
    [190, 10, 56, 10, 166, 8, 32, 8, 32, 8, 32, 8, 32, 8, 32, 8],
    [134, 45, 238, 162, 195, 104, 5, 15, 198, 79, 176, 123, 74, 64, 1, 15],
    [32, 191, 222, 202, 68, 71, 233, 139, 214, 53, 108, 216, 174, 234, 238, 139],
    [70, 237, 3, 72, 252, 38, 166, 36, 12, 170, 105, 233, 95, 128, 4, 192],
    [38, 166, 100, 46, 1, 41, 75, 136, 220, 251, 45, 151, 212, 66, 5, 164],
    [90, 57, 37, 80, 217, 88, 221, 189, 177, 99, 190, 188, 125, 125, 208, 225],
    [40, 25, 56, 250, 67, 138, 167, 211, 35, 71, 82, 122, 227, 115, 101, 99],
    [98, 175, 140, 113, 56, 216, 23, 229, 230, 158, 82, 8, 216, 228, 131, 65],
    [211, 167, 161, 211, 121, 197, 64, 114, 125, 195, 86, 174, 158, 52, 150, 133],
    [248, 225, 111, 219, 143, 56, 201, 179, 79, 24, 129, 53, 53, 214, 51, 8],
    [236, 237, 223, 38, 119, 171, 78, 199, 52, 171, 136, 254, 176, 80, 144, 29],
    [222, 11, 157, 30, 137, 234, 139, 49, 166, 230, 133, 202, 144, 59, 204, 120],
    [68, 48, 171, 186, 209, 15, 37, 142, 8, 49, 55, 21, 54, 253, 228, 114],
    [217, 26, 167, 25, 17, 193, 32, 118, 200, 161, 68, 114, 119, 95, 170, 196],
    [118, 20, 160, 140, 179, 119, 153, 210, 213, 110, 99, 150, 75, 111, 238, 197]]
        3 zero16)) =
      (⟨1955162326719057120, 2775082189712937985⟩, ⟨1499266281034909858, 2511294663210618614⟩, ⟨16935943410465743858, 313781852677446051⟩) := by decide

theorem gd_t5 :
    karatsuba_triple
      (to_lepoly_128 (m128_load ((((List.range 128).take 128).drop 80).take 16)))
      (m128_load (List.getD
        [[15, 14, 13, 12, 11, 10, 9, 8, 7, 6, 5, 4, 3, 2, 1, 0],
    [190, 10, 56, 10, 166, 8, 32, 8, 32, 8, 32, 8, 32, 8, 32, 8],
    [134, 45, 238, 162, 195, 104, 5, 15, 198, 79, 176, 123, 74, 64, 1, 15],
    [32, 191, 222, 202, 68, 71, 233, 139, 214, 53, 108, 216, 174, 234, 238, 139],
    [70, 237, 3, 72, 252, 38, 166, 36, 12, 170, 105, 233, 95, 128, 4, 192],
    [38, 166, 100, 46, 1, 41, 75, 136, 220, 251, 45, 151, 212, 66, 5, 164],
    [90, 57, 37, 80, 217, 88, 221, 189, 177, 99, 190, 188, 125, 125, 208, 225],
    [40, 25, 56, 250, 67, 138, 167, 211, 35, 71, 82, 122, 227, 115, 101, 99],
    [98, 175, 140, 113, 56, 216, 23, 229, 230, 158, 82, 8, 216, 228, 131, 65],
    [211, 167, 161, 211, 121, 197, 64, 114, 125, 195, 86, 174, 158, 52, 150, 133],
    [248, 225, 111, 219, 143, 56, 201, 179, 79, 24, 129, 53, 53, 214, 51, 8],
    [236, 237, 223, 38, 119, 171, 78, 199, 52, 171, 136, 254, 176, 80, 144, 29],
    [222, 11, 157, 30, 137, 234, 139, 49, 166, 230, 133, 202, 144, 59, 204, 120],
    [68, 48, 171, 186, 209, 15, 37, 142, 8, 49, 55, 21, 54, 253, 228, 114],
    [217, 26, 167, 25, 17, 193, 32, 118, 200, 161, 68, 114, 119, 95, 170, 196],
    [118, 20, 160, 140, 179, 119, 153, 210, 213, 110, 99, 150, 75, 111, 238, 197]]
        2 zero16)) =
      (⟨2687754791469502786, 237110284563216489⟩, ⟨1677017457402156722, 230660488688173483⟩, ⟨3605419183880295920, 34123992107346882⟩) := by decide

theorem gd_t6 :
    karatsuba_triple
      (to_lepoly_128 (m128_load ((((List.range 128).take 128).drop 96).take 16)))
      (m128_load (List.getD
        [[15, 14, 13, 12, 11, 10, 9, 8, 7, 6, 5, 4, 3, 2, 1, 0],
    [190, 10, 56, 10, 166, 8, 32, 8, 32, 8, 32, 8, 32, 8, 32, 8],
    [134, 45, 238, 162, 195, 104, 5, 15, 198, 79, 176, 123, 74, 64, 1, 15],
    [32, 191, 222, 202, 68, 71, 233, 139, 214, 53, 108, 216, 174, 234, 238, 139],
    [70, 237, 3, 72, 252, 38, 166, 36, 12, 170, 105, 233, 95, 128, 4, 192],
    [38, 166, 100, 46, 1, 41, 75, 136, 220, 251, 45, 151, 212, 66, 5, 164],
    [90, 57, 37, 80, 217, 88, 221, 189, 177, 99, 190, 188, 125, 125, 208, 225],
    [40, 25, 56, 250, 67, 138, 167, 211, 35, 71, 82, 122, 227, 115, 101, 99],
    [98, 175, 140, 113, 56, 216, 23, 229, 230, 158, 82, 8, 216, 228, 131, 65],
    [211, 167, 161, 211, 121, 197, 64, 114, 125, 195, 86, 174, 158, 52, 150, 133],
    [248, 225, 111, 219, 143, 56, 201, 179, 79, 24, 129, 53, 53, 214, 51, 8],
    [236, 237, 223, 38, 119, 171, 78, 199, 52, 171, 136, 254, 176, 80, 144, 29],
    [222, 11, 157, 30, 137, 234, 139, 49, 166, 230, 133, 202, 144, 59, 204, 120],
    [68, 48, 171, 186, 209, 15, 37, 142, 8, 49, 55, 21, 54, 253, 228, 114],
    [217, 26, 167, 25, 17, 193, 32, 118, 200, 161, 68, 114, 119, 95, 170, 196],
    [118, 20, 160, 140, 179, 119, 153, 210, 213, 110, 99, 150, 75, 111, 238, 197]]
        1 zero16)) =
      (⟨3271868750882647178, 238203718446213828⟩, ⟨220399512370279648, 220399512370279648⟩, ⟨3343649491987512474, 18367554098756308⟩) := by decide

theorem gd_t7 :
    karatsuba_triple
      (to_lepoly_128 (m128_load ((((List.range 128).take 128).drop 112).take 16)))
      (m128_load (List.getD
        [[15, 14, 13, 12, 11, 10, 9, 8, 7, 6, 5, 4, 3, 2, 1, 0],
    [190, 10, 56, 10, 166, 8, 32, 8, 32, 8, 32, 8, 32, 8, 32, 8],
    [134, 45, 238, 162, 195, 104, 5, 15, 198, 79, 176, 123, 74, 64, 1, 15],
    [32, 191, 222, 202, 68, 71, 233, 139, 214, 53, 108, 216, 174, 234, 238, 139],
    [70, 237, 3, 72, 252, 38, 166, 36, 12, 170, 105, 233, 95, 128, 4, 192],
    [38, 166, 100, 46, 1, 41, 75, 136, 220, 251, 45, 151, 212, 66, 5, 164],
    [90, 57, 37, 80, 217, 88, 221, 189, 177, 99, 190, 188, 125, 125, 208, 225],
    [40, 25, 56, 250, 67, 138, 167, 211, 35, 71, 82, 122, 227, 115, 101, 99],
    [98, 175, 140, 113, 56, 216, 23, 229, 230, 158, 82, 8, 216, 228, 131, 65],
    [211, 167, 161, 211, 121, 197, 64, 114, 125, 195, 86, 174, 158, 52, 150, 133],
    [248, 225, 111, 219, 143, 56, 201, 179, 79, 24, 129, 53, 53, 214, 51, 8],
    [236, 237, 223, 38, 119, 171, 78, 199, 52, 171, 136, 254, 176, 80, 144, 29],
    [222, 11, 157, 30, 137, 234, 139, 49, 166, 230, 133, 202, 144, 59, 204, 120],
    [68, 48, 171, 186, 209, 15, 37, 142, 8, 49, 55, 21, 54, 253, 228, 114],
    [217, 26, 167, 25, 17, 193, 32, 118, 200, 161, 68, 114, 119, 95, 170, 196],
    [118, 20, 160, 140, 179, 119, 153, 210, 213, 110, 99, 150, 75, 111, 238, 197]]
        0 zero16)) =
      (⟨274846300314563205, 270342769405620885⟩, ⟨4627299011162437, 123768102220117⟩, ⟨252205427482166144, 252205427482166144⟩) := by decide

theorem gd_batch_core :
    ghash_clmul8_batch (m128_load zero16)
      [[15, 14, 13, 12, 11, 10, 9, 8, 7, 6, 5, 4, 3, 2, 1, 0],
    [190, 10, 56, 10, 166, 8, 32, 8, 32, 8, 32, 8, 32, 8, 32, 8],
    [134, 45, 238, 162, 195, 104, 5, 15, 198, 79, 176, 123, 74, 64, 1, 15],
    [32, 191, 222, 202, 68, 71, 233, 139, 214, 53, 108, 216, 174, 234, 238, 139],
    [70, 237, 3, 72, 252, 38, 166, 36, 12, 170, 105, 233, 95, 128, 4, 192],
    [38, 166, 100, 46, 1, 41, 75, 136, 220, 251, 45, 151, 212, 66, 5, 164],
    [90, 57, 37, 80, 217, 88, 221, 189, 177, 99, 190, 188, 125, 125, 208, 225],
    [40, 25, 56, 250, 67, 138, 167, 211, 35, 71, 82, 122, 227, 115, 101, 99],
    [98, 175, 140, 113, 56, 216, 23, 229, 230, 158, 82, 8, 216, 228, 131, 65],
    [211, 167, 161, 211, 121, 197, 64, 114, 125, 195, 86, 174, 158, 52, 150, 133],
    [248, 225, 111, 219, 143, 56, 201, 179, 79, 24, 129, 53, 53, 214, 51, 8],
    [236, 237, 223, 38, 119, 171, 78, 199, 52, 171, 136, 254, 176, 80, 144, 29],
    [222, 11, 157, 30, 137, 234, 139, 49, 166, 230, 133, 202, 144, 59, 204, 120],
    [68, 48, 171, 186, 209, 15, 37, 142, 8, 49, 55, 21, 54, 253, 228, 114],
    [217, 26, 167, 25, 17, 193, 32, 118, 200, 161, 68, 114, 119, 95, 170, 196],
    [118, 20, 160, 140, 179, 119, 153, 210, 213, 110, 99, 150, 75, 111, 238, 197]]
      ((List.range 128).take 128) =
    ghash_reduce_intel
      (mm_xor
        (mm_xor
          (mm_xor (mm_xor (⟨6076591285395732120, 476103877939763649⟩ : M128) ⟨17115619071909125622, 1026186220334471194⟩)
            (mm_xor ⟨12614360185371206402, 1539926851491002647⟩ ⟨843324884500123714, 575421727845788192⟩))
          (mm_xor (mm_xor ⟨1955162326719057120, 2775082189712937985⟩ ⟨2687754791469502786, 237110284563216489⟩)
            (mm_xor ⟨3271868750882647178, 238203718446213828⟩ ⟨274846300314563205, 270342769405620885⟩)))
        (mm_slli_si128_8
          (mm_xor
            (mm_xor (mm_xor (⟨16050009654855958825, 223071178610198475⟩ : M128) ⟨12622142762256725417, 201748947627816863⟩)
              (mm_xor ⟨15195971616034344006, 47677249540911088⟩ ⟨12079772957800015222, 1498138770912165798⟩))
            (mm_xor (mm_xor ⟨16935943410465743858, 313781852677446051⟩ ⟨3605419183880295920, 34123992107346882⟩)
              (mm_xor ⟨3343649491987512474, 18367554098756308⟩ ⟨252205427482166144, 252205427482166144⟩)))))
      (mm_xor
        (mm_xor
          (mm_xor (mm_xor (⟨3156537180122390505, 109552219935478⟩ : M128) ⟨17365321871579064071, 1014423523409580141⟩)
            (mm_xor ⟨2365118229953761428, 1482978584369657195⟩ ⟨9735081644986130276, 1446795979074032634⟩))
          (mm_xor (mm_xor ⟨1499266281034909858, 2511294663210618614⟩ ⟨1677017457402156722, 230660488688173483⟩)
            (mm_xor ⟨220399512370279648, 220399512370279648⟩ ⟨4627299011162437, 123768102220117⟩)))
        (mm_srli_si128_8
          (mm_xor
            (mm_xor (mm_xor (⟨16050009654855958825, 223071178610198475⟩ : M128) ⟨12622142762256725417, 201748947627816863⟩)
              (mm_xor ⟨15195971616034344006, 47677249540911088⟩ ⟨12079772957800015222, 1498138770912165798⟩))
            (mm_xor (mm_xor ⟨16935943410465743858, 313781852677446051⟩ ⟨3605419183880295920, 34123992107346882⟩)
              (mm_xor ⟨3343649491987512474, 18367554098756308⟩ ⟨252205427482166144, 252205427482166144⟩))))) := by
  rw [show ghash_clmul8_batch (m128_load zero16)
      [[15, 14, 13, 12, 11, 10, 9, 8, 7, 6, 5, 4, 3, 2, 1, 0],
    [190, 10, 56, 10, 166, 8, 32, 8, 32, 8, 32, 8, 32, 8, 32, 8],
    [134, 45, 238, 162, 195, 104, 5, 15, 198, 79, 176, 123, 74, 64, 1, 15],
    [32, 191, 222, 202, 68, 71, 233, 139, 214, 53, 108, 216, 174, 234, 238, 139],
    [70, 237, 3, 72, 252, 38, 166, 36, 12, 170, 105, 233, 95, 128, 4, 192],
    [38, 166, 100, 46, 1, 41, 75, 136, 220, 251, 45, 151, 212, 66, 5, 164],
    [90, 57, 37, 80, 217, 88, 221, 189, 177, 99, 190, 188, 125, 125, 208, 225],
    [40, 25, 56, 250, 67, 138, 167, 211, 35, 71, 82, 122, 227, 115, 101, 99],
    [98, 175, 140, 113, 56, 216, 23, 229, 230, 158, 82, 8, 216, 228, 131, 65],
    [211, 167, 161, 211, 121, 197, 64, 114, 125, 195, 86, 174, 158, 52, 150, 133],
    [248, 225, 111, 219, 143, 56, 201, 179, 79, 24, 129, 53, 53, 214, 51, 8],
    [236, 237, 223, 38, 119, 171, 78, 199, 52, 171, 136, 254, 176, 80, 144, 29],
    [222, 11, 157, 30, 137, 234, 139, 49, 166, 230, 133, 202, 144, 59, 204, 120],
    [68, 48, 171, 186, 209, 15, 37, 142, 8, 49, 55, 21, 54, 253, 228, 114],
    [217, 26, 167, 25, 17, 193, 32, 118, 200, 161, 68, 114, 119, 95, 170, 196],
    [118, 20, 160, 140, 179, 119, 153, 210, 213, 110, 99, 150, 75, 111, 238, 197]]
      ((List.range 128).take 128) =
    (let H := fun i => m128_load (List.getD
      [[15, 14, 13, 12, 11, 10, 9, 8, 7, 6, 5, 4, 3, 2, 1, 0],
    [190, 10, 56, 10, 166, 8, 32, 8, 32, 8, 32, 8, 32, 8, 32, 8],
    [134, 45, 238, 162, 195, 104, 5, 15, 198, 79, 176, 123, 74, 64, 1, 15],
    [32, 191, 222, 202, 68, 71, 233, 139, 214, 53, 108, 216, 174, 234, 238, 139],
    [70, 237, 3, 72, 252, 38, 166, 36, 12, 170, 105, 233, 95, 128, 4, 192],
    [38, 166, 100, 46, 1, 41, 75, 136, 220, 251, 45, 151, 212, 66, 5, 164],
    [90, 57, 37, 80, 217, 88, 221, 189, 177, 99, 190, 188, 125, 125, 208, 225],
    [40, 25, 56, 250, 67, 138, 167, 211, 35, 71, 82, 122, 227, 115, 101, 99],
    [98, 175, 140, 113, 56, 216, 23, 229, 230, 158, 82, 8, 216, 228, 131, 65],
    [211, 167, 161, 211, 121, 197, 64, 114, 125, 195, 86, 174, 158, 52, 150, 133],
    [248, 225, 111, 219, 143, 56, 201, 179, 79, 24, 129, 53, 53, 214, 51, 8],
    [236, 237, 223, 38, 119, 171, 78, 199, 52, 171, 136, 254, 176, 80, 144, 29],
    [222, 11, 157, 30, 137, 234, 139, 49, 166, 230, 133, 202, 144, 59, 204, 120],
    [68, 48, 171, 186, 209, 15, 37, 142, 8, 49, 55, 21, 54, 253, 228, 114],
    [217, 26, 167, 25, 17, 193, 32, 118, 200, 161, 68, 114, 119, 95, 170, 196],
    [118, 20, 160, 140, 179, 119, 153, 210, 213, 110, 99, 150, 75, 111, 238, 197]]
      (7 - i) zero16);
     let C := fun i => to_lepoly_128 (m128_load ((((List.range 128).take 128).drop (i * 16)).take 16));
     let t := fun i => karatsuba_triple (if i = 0 then mm_xor (C 0) (m128_load zero16) else C i) (H i);
     let acc := fun a => (mm_xor (t (2*a)).1 (t (2*a+1)).1,
                          mm_xor (t (2*a)).2.1 (t (2*a+1)).2.1,
                          mm_xor (t (2*a)).2.2 (t (2*a+1)).2.2);
     let lo := mm_xor (mm_xor (acc 0).1 (acc 1).1) (mm_xor (acc 2).1 (acc 3).1);
     let hi := mm_xor (mm_xor (acc 0).2.1 (acc 1).2.1) (mm_xor (acc 2).2.1 (acc 3).2.1);
     let mid := mm_xor (mm_xor (acc 0).2.2 (acc 1).2.2) (mm_xor (acc 2).2.2 (acc 3).2.2);
     let lo := mm_xor lo (mm_slli_si128_8 mid);
     let hi := mm_xor hi (mm_srli_si128_8 mid);
     ghash_reduce_intel lo hi) from rfl]
  simp only [Nat.reduceMul, Nat.reduceAdd, Nat.reduceSub, reduceIte]
  rw [if_neg (by decide : ¬((1 : Nat) = 0))]
  rw [if_neg (by decide : ¬((2 : Nat) = 0))]
  rw [if_neg (by decide : ¬((3 : Nat) = 0))]
  rw [if_neg (by decide : ¬((4 : Nat) = 0))]
  rw [if_neg (by decide : ¬((5 : Nat) = 0))]
  rw [if_neg (by decide : ¬((6 : Nat) = 0))]
  rw [if_neg (by decide : ¬((7 : Nat) = 0))]
  rw [gd_t0, gd_t1, gd_t2, gd_t3, gd_t4, gd_t5, gd_t6, gd_t7]

theorem gd_batch_eval :
    ghash_update_clmul8 zero16
      [[15, 14, 13, 12, 11, 10, 9, 8, 7, 6, 5, 4, 3, 2, 1, 0],
    [190, 10, 56, 10, 166, 8, 32, 8, 32, 8, 32, 8, 32, 8, 32, 8],
    [134, 45, 238, 162, 195, 104, 5, 15, 198, 79, 176, 123, 74, 64, 1, 15],
    [32, 191, 222, 202, 68, 71, 233, 139, 214, 53, 108, 216, 174, 234, 238, 139],
    [70, 237, 3, 72, 252, 38, 166, 36, 12, 170, 105, 233, 95, 128, 4, 192],
    [38, 166, 100, 46, 1, 41, 75, 136, 220, 251, 45, 151, 212, 66, 5, 164],
    [90, 57, 37, 80, 217, 88, 221, 189, 177, 99, 190, 188, 125, 125, 208, 225],
    [40, 25, 56, 250, 67, 138, 167, 211, 35, 71, 82, 122, 227, 115, 101, 99],
    [98, 175, 140, 113, 56, 216, 23, 229, 230, 158, 82, 8, 216, 228, 131, 65],
    [211, 167, 161, 211, 121, 197, 64, 114, 125, 195, 86, 174, 158, 52, 150, 133],
    [248, 225, 111, 219, 143, 56, 201, 179, 79, 24, 129, 53, 53, 214, 51, 8],
    [236, 237, 223, 38, 119, 171, 78, 199, 52, 171, 136, 254, 176, 80, 144, 29],
    [222, 11, 157, 30, 137, 234, 139, 49, 166, 230, 133, 202, 144, 59, 204, 120],
    [68, 48, 171, 186, 209, 15, 37, 142, 8, 49, 55, 21, 54, 253, 228, 114],
    [217, 26, 167, 25, 17, 193, 32, 118, 200, 161, 68, 114, 119, 95, 170, 196],
    [118, 20, 160, 140, 179, 119, 153, 210, 213, 110, 99, 150, 75, 111, 238, 197]]
      (List.range 128) = [97, 67, 72, 131, 251, 100, 7, 26, 141, 212, 94, 255, 76, 202, 194, 72] := by
  simp only [ghash_update_clmul8]
  rw [show (List.range 128).length / 128 = 1 from by decide]
  rw [show ghash_clmul8_go
      [[15, 14, 13, 12, 11, 10, 9, 8, 7, 6, 5, 4, 3, 2, 1, 0],
    [190, 10, 56, 10, 166, 8, 32, 8, 32, 8, 32, 8, 32, 8, 32, 8],
    [134, 45, 238, 162, 195, 104, 5, 15, 198, 79, 176, 123, 74, 64, 1, 15],
    [32, 191, 222, 202, 68, 71, 233, 139, 214, 53, 108, 216, 174, 234, 238, 139],
    [70, 237, 3, 72, 252, 38, 166, 36, 12, 170, 105, 233, 95, 128, 4, 192],
    [38, 166, 100, 46, 1, 41, 75, 136, 220, 251, 45, 151, 212, 66, 5, 164],
    [90, 57, 37, 80, 217, 88, 221, 189, 177, 99, 190, 188, 125, 125, 208, 225],
    [40, 25, 56, 250, 67, 138, 167, 211, 35, 71, 82, 122, 227, 115, 101, 99],
    [98, 175, 140, 113, 56, 216, 23, 229, 230, 158, 82, 8, 216, 228, 131, 65],
    [211, 167, 161, 211, 121, 197, 64, 114, 125, 195, 86, 174, 158, 52, 150, 133],
    [248, 225, 111, 219, 143, 56, 201, 179, 79, 24, 129, 53, 53, 214, 51, 8],
    [236, 237, 223, 38, 119, 171, 78, 199, 52, 171, 136, 254, 176, 80, 144, 29],
    [222, 11, 157, 30, 137, 234, 139, 49, 166, 230, 133, 202, 144, 59, 204, 120],
    [68, 48, 171, 186, 209, 15, 37, 142, 8, 49, 55, 21, 54, 253, 228, 114],
    [217, 26, 167, 25, 17, 193, 32, 118, 200, 161, 68, 114, 119, 95, 170, 196],
    [118, 20, 160, 140, 179, 119, 153, 210, 213, 110, 99, 150, 75, 111, 238, 197]]
      1 (m128_load zero16) (List.range 128) =
    ghash_clmul8_go
      [[15, 14, 13, 12, 11, 10, 9, 8, 7, 6, 5, 4, 3, 2, 1, 0],
    [190, 10, 56, 10, 166, 8, 32, 8, 32, 8, 32, 8, 32, 8, 32, 8],
    [134, 45, 238, 162, 195, 104, 5, 15, 198, 79, 176, 123, 74, 64, 1, 15],
    [32, 191, 222, 202, 68, 71, 233, 139, 214, 53, 108, 216, 174, 234, 238, 139],
    [70, 237, 3, 72, 252, 38, 166, 36, 12, 170, 105, 233, 95, 128, 4, 192],
    [38, 166, 100, 46, 1, 41, 75, 136, 220, 251, 45, 151, 212, 66, 5, 164],
    [90, 57, 37, 80, 217, 88, 221, 189, 177, 99, 190, 188, 125, 125, 208, 225],
    [40, 25, 56, 250, 67, 138, 167, 211, 35, 71, 82, 122, 227, 115, 101, 99],
    [98, 175, 140, 113, 56, 216, 23, 229, 230, 158, 82, 8, 216, 228, 131, 65],
    [211, 167, 161, 211, 121, 197, 64, 114, 125, 195, 86, 174, 158, 52, 150, 133],
    [248, 225, 111, 219, 143, 56, 201, 179, 79, 24, 129, 53, 53, 214, 51, 8],
    [236, 237, 223, 38, 119, 171, 78, 199, 52, 171, 136, 254, 176, 80, 144, 29],
    [222, 11, 157, 30, 137, 234, 139, 49, 166, 230, 133, 202, 144, 59, 204, 120],
    [68, 48, 171, 186, 209, 15, 37, 142, 8, 49, 55, 21, 54, 253, 228, 114],
    [217, 26, 167, 25, 17, 193, 32, 118, 200, 161, 68, 114, 119, 95, 170, 196],
    [118, 20, 160, 140, 179, 119, 153, 210, 213, 110, 99, 150, 75, 111, 238, 197]]
      0 (ghash_clmul8_batch (m128_load zero16)
          [[15, 14, 13, 12, 11, 10, 9, 8, 7, 6, 5, 4, 3, 2, 1, 0],
    [190, 10, 56, 10, 166, 8, 32, 8, 32, 8, 32, 8, 32, 8, 32, 8],
    [134, 45, 238, 162, 195, 104, 5, 15, 198, 79, 176, 123, 74, 64, 1, 15],
    [32, 191, 222, 202, 68, 71, 233, 139, 214, 53, 108, 216, 174, 234, 238, 139],
    [70, 237, 3, 72, 252, 38, 166, 36, 12, 170, 105, 233, 95, 128, 4, 192],
    [38, 166, 100, 46, 1, 41, 75, 136, 220, 251, 45, 151, 212, 66, 5, 164],
    [90, 57, 37, 80, 217, 88, 221, 189, 177, 99, 190, 188, 125, 125, 208, 225],
    [40, 25, 56, 250, 67, 138, 167, 211, 35, 71, 82, 122, 227, 115, 101, 99],
    [98, 175, 140, 113, 56, 216, 23, 229, 230, 158, 82, 8, 216, 228, 131, 65],
    [211, 167, 161, 211, 121, 197, 64, 114, 125, 195, 86, 174, 158, 52, 150, 133],
    [248, 225, 111, 219, 143, 56, 201, 179, 79, 24, 129, 53, 53, 214, 51, 8],
    [236, 237, 223, 38, 119, 171, 78, 199, 52, 171, 136, 254, 176, 80, 144, 29],
    [222, 11, 157, 30, 137, 234, 139, 49, 166, 230, 133, 202, 144, 59, 204, 120],
    [68, 48, 171, 186, 209, 15, 37, 142, 8, 49, 55, 21, 54, 253, 228, 114],
    [217, 26, 167, 25, 17, 193, 32, 118, 200, 161, 68, 114, 119, 95, 170, 196],
    [118, 20, 160, 140, 179, 119, 153, 210, 213, 110, 99, 150, 75, 111, 238, 197]]
          ((List.range 128).take 128))
        ((List.range 128).drop 128) from rfl]
  rw [show ∀ y : M128, ghash_clmul8_go
      [[15, 14, 13, 12, 11, 10, 9, 8, 7, 6, 5, 4, 3, 2, 1, 0],
    [190, 10, 56, 10, 166, 8, 32, 8, 32, 8, 32, 8, 32, 8, 32, 8],
    [134, 45, 238, 162, 195, 104, 5, 15, 198, 79, 176, 123, 74, 64, 1, 15],
    [32, 191, 222, 202, 68, 71, 233, 139, 214, 53, 108, 216, 174, 234, 238, 139],
    [70, 237, 3, 72, 252, 38, 166, 36, 12, 170, 105, 233, 95, 128, 4, 192],
    [38, 166, 100, 46, 1, 41, 75, 136, 220, 251, 45, 151, 212, 66, 5, 164],
    [90, 57, 37, 80, 217, 88, 221, 189, 177, 99, 190, 188, 125, 125, 208, 225],
    [40, 25, 56, 250, 67, 138, 167, 211, 35, 71, 82, 122, 227, 115, 101, 99],
    [98, 175, 140, 113, 56, 216, 23, 229, 230, 158, 82, 8, 216, 228, 131, 65],
    [211, 167, 161, 211, 121, 197, 64, 114, 125, 195, 86, 174, 158, 52, 150, 133],
    [248, 225, 111, 219, 143, 56, 201, 179, 79, 24, 129, 53, 53, 214, 51, 8],
    [236, 237, 223, 38, 119, 171, 78, 199, 52, 171, 136, 254, 176, 80, 144, 29],
    [222, 11, 157, 30, 137, 234, 139, 49, 166, 230, 133, 202, 144, 59, 204, 120],
    [68, 48, 171, 186, 209, 15, 37, 142, 8, 49, 55, 21, 54, 253, 228, 114],
    [217, 26, 167, 25, 17, 193, 32, 118, 200, 161, 68, 114, 119, 95, 170, 196],
    [118, 20, 160, 140, 179, 119, 153, 210, 213, 110, 99, 150, 75, 111, 238, 197]]
      0 y ((List.range 128).drop 128) = y from fun y => rfl]
  rw [gd_batch_core]
  decide

theorem gd_seq0 :
    ghash_update_clmul zero16 [15, 14, 13, 12, 11, 10, 9, 8, 7, 6, 5, 4, 3, 2, 1, 0]
      (((List.range 128).drop (0 * 16)).take 16) =
      [190, 10, 56, 10, 166, 8, 32, 8, 32, 8, 32, 8, 32, 8, 32, 8] := by decide

theorem gd_seq1 :
    ghash_update_clmul [190, 10, 56, 10, 166, 8, 32, 8, 32, 8, 32, 8, 32, 8, 32, 8] [15, 14, 13, 12, 11, 10, 9, 8, 7, 6, 5, 4, 3, 2, 1, 0]
      (((List.range 128).drop (1 * 16)).take 16) =
      [24, 61, 94, 202, 197, 91, 45, 68, 230, 4, 144, 48, 106, 11, 33, 68] := by decide

theorem gd_seq2 :
    ghash_update_clmul [24, 61, 94, 202, 197, 91, 45, 68, 230, 4, 144, 48, 106, 11, 33, 68] [15, 14, 13, 12, 11, 10, 9, 8, 7, 6, 5, 4, 3, 2, 1, 0]
      (((List.range 128).drop (2 * 16)).take 16) =
      [25, 193, 201, 160, 183, 139, 42, 11, 112, 175, 241, 254, 70, 181, 25, 11] := by decide

theorem gd_seq3 :
    ghash_update_clmul [25, 193, 201, 160, 183, 139, 42, 11, 112, 175, 241, 254, 70, 181, 25, 11] [15, 14, 13, 12, 11, 10, 9, 8, 7, 6, 5, 4, 3, 2, 1, 0]
      (((List.range 128).drop (3 * 16)).take 16) =
      [6, 209, 89, 28, 24, 185, 187, 6, 79, 16, 189, 95, 126, 97, 74, 234] := by decide

theorem gd_seq4 :
    ghash_update_clmul [6, 209, 89, 28, 24, 185, 187, 6, 79, 16, 189, 95, 126, 97, 74, 234] [15, 14, 13, 12, 11, 10, 9, 8, 7, 6, 5, 4, 3, 2, 1, 0]
      (((List.range 128).drop (4 * 16)).take 16) =
      [154, 29, 29, 31, 19, 203, 228, 252, 105, 99, 197, 41, 213, 251, 214, 152] := by decide

theorem gd_seq5 :
    ghash_update_clmul [154, 29, 29, 31, 19, 203, 228, 252, 105, 99, 197, 41, 213, 251, 214, 152] [15, 14, 13, 12, 11, 10, 9, 8, 7, 6, 5, 4, 3, 2, 1, 0]
      (((List.range 128).drop (5 * 16)).take 16) =
      [138, 57, 13, 253, 218, 186, 165, 100, 0, 159, 36, 212, 74, 153, 221, 122] := by decide

theorem gd_seq6 :
    ghash_update_clmul [138, 57, 13, 253, 218, 186, 165, 100, 0, 159, 36, 212, 74, 153, 221, 122] [15, 14, 13, 12, 11, 10, 9, 8, 7, 6, 5, 4, 3, 2, 1, 0]
      (((List.range 128).drop (6 * 16)).take 16) =
      [48, 158, 191, 254, 16, 141, 206, 181, 197, 239, 103, 102, 60, 89, 12, 122] := by decide

theorem gd_seq7 :
    ghash_update_clmul [48, 158, 191, 254, 16, 141, 206, 181, 197, 239, 103, 102, 60, 89, 12, 122] [15, 14, 13, 12, 11, 10, 9, 8, 7, 6, 5, 4, 3, 2, 1, 0]
      (((List.range 128).drop (7 * 16)).take 16) =
      [161, 3, 83, 81, 28, 73, 217, 109, 40, 35, 251, 162, 6, 201, 85, 228] := by decide

theorem gd_seq_eval :
    ghash_clmul_seq8 zero16 [15, 14, 13, 12, 11, 10, 9, 8, 7, 6, 5, 4, 3, 2, 1, 0]
      (List.range 128) = [161, 3, 83, 81, 28, 73, 217, 109, 40, 35, 251, 162, 6, 201, 85, 228] := by
  simp only [ghash_clmul_seq8]
  rw [show List.range 8 = [0, 1, 2, 3, 4, 5, 6, 7] from by decide]
  simp only [List.foldl_cons, List.foldl_nil]
  rw [gd_seq0, gd_seq1, gd_seq2, gd_seq3, gd_seq4, gd_seq5, gd_seq6, gd_seq7]

/-- C5.  Gate D fails on the CLMUL path: for zero initial state, the
H-power table derived from H = bytes 0x00..0x0F, and the 128-byte input
0x00..0x7F, the batched `ghash_update_clmul8` does not match eight
successive single-block `ghash_update_clmul` updates (the deferred
single reduction and the per-block reduction disagree because
`ghash_reduce_intel` is not a ring-compatible reduction in this domain,
cf. C2). -/
theorem gateD_clmul8_ne_sequential :
    ghash_update_clmul8 zero16 c5_table (List.range 128) ≠
      ghash_clmul_seq8 zero16 (c5_table.getD 0 zero16) (List.range 128) := by
  rw [c5_table_eval, gd_batch_eval]
  rw [show ([[15, 14, 13, 12, 11, 10, 9, 8, 7, 6, 5, 4, 3, 2, 1, 0],
    [190, 10, 56, 10, 166, 8, 32, 8, 32, 8, 32, 8, 32, 8, 32, 8],
    [134, 45, 238, 162, 195, 104, 5, 15, 198, 79, 176, 123, 74, 64, 1, 15],
    [32, 191, 222, 202, 68, 71, 233, 139, 214, 53, 108, 216, 174, 234, 238, 139],
    [70, 237, 3, 72, 252, 38, 166, 36, 12, 170, 105, 233, 95, 128, 4, 192],
    [38, 166, 100, 46, 1, 41, 75, 136, 220, 251, 45, 151, 212, 66, 5, 164],
    [90, 57, 37, 80, 217, 88, 221, 189, 177, 99, 190, 188, 125, 125, 208, 225],
    [40, 25, 56, 250, 67, 138, 167, 211, 35, 71, 82, 122, 227, 115, 101, 99],
    [98, 175, 140, 113, 56, 216, 23, 229, 230, 158, 82, 8, 216, 228, 131, 65],
    [211, 167, 161, 211, 121, 197, 64, 114, 125, 195, 86, 174, 158, 52, 150, 133],
    [248, 225, 111, 219, 143, 56, 201, 179, 79, 24, 129, 53, 53, 214, 51, 8],
    [236, 237, 223, 38, 119, 171, 78, 199, 52, 171, 136, 254, 176, 80, 144, 29],
    [222, 11, 157, 30, 137, 234, 139, 49, 166, 230, 133, 202, 144, 59, 204, 120],
    [68, 48, 171, 186, 209, 15, 37, 142, 8, 49, 55, 21, 54, 253, 228, 114],
    [217, 26, 167, 25, 17, 193, 32, 118, 200, 161, 68, 114, 119, 95, 170, 196],
    [118, 20, 160, 140, 179, 119, 153, 210, 213, 110, 99, 150, 75, 111, 238, 197]] : List (List Nat)).getD 0 zero16 =
      [15, 14, 13, 12, 11, 10, 9, 8, 7, 6, 5, 4, 3, 2, 1, 0] from rfl]
  rw [gd_seq_eval]
  decide

/-! ## Staged evaluations for the all-zero 32-byte key

Each heavy computation (key expansion, single AES blocks) is evaluated
exactly once and recorded as a literal, so later theorems rewrite with
these equations instead of re-running the evaluation. -/

theorem rk0_stage_a :
    (List.range' 8 7).foldl (fun rk i => rk ++ [aes_key_expand_word rk i])
      ((List.range 8).map fun i => soliton_le32 (key0.drop (i * 4))) =
      [0, 0, 0, 0, 0, 0, 0, 0, 1667457890, 1667457890, 1667457890, 1667457890, 4227595178, 
      4227595178, 4227595178] := by decide

theorem rk0_stage_b :
    (List.range' 15 7).foldl (fun rk i => rk ++ [aes_key_expand_word rk i])
      [0, 0, 0, 0, 0, 0, 0, 0, 1667457890, 1667457890, 1667457890, 1667457890, 4227595178, 
      4227595178, 4227595178] =
      [0, 0, 0, 0, 0, 0, 0, 0, 1667457890, 1667457890, 1667457890, 1667457890, 4227595178, 
      4227595178, 4227595178, 4227595178, 3479989359, 2886668045, 3479989359, 2886668045, 
      1787661693, 2440459991] := by decide

theorem rk0_stage_c :
    (List.range' 22 6).foldl (fun rk i => rk ++ [aes_key_expand_word rk i])
      [0, 0, 0, 0, 0, 0, 0, 0, 1667457890, 1667457890, 1667457890, 1667457890, 4227595178, 
      4227595178, 4227595178, 4227595178, 3479989359, 2886668045, 3479989359, 2886668045, 
      1787661693, 2440459991] =
      [0, 0, 0, 0, 0, 0, 0, 0, 1667457890, 1667457890, 1667457890, 1667457890, 4227595178, 
      4227595178, 4227595178, 4227595178, 3479989359, 2886668045, 3479989359, 2886668045, 
      1787661693, 2440459991, 1787661693, 2440459991, 3253556307, 1843551070, 2727229233, 
      243349564] := by decide

theorem rk0_stage_d :
    (List.range' 28 6).foldl (fun rk i => rk ++ [aes_key_expand_word rk i])
      [0, 0, 0, 0, 0, 0, 0, 0, 1667457890, 1667457890, 1667457890, 1667457890, 4227595178, 
      4227595178, 4227595178, 4227595178, 3479989359, 2886668045, 3479989359, 2886668045, 
      1787661693, 2440459991, 1787661693, 2440459991, 3253556307, 1843551070, 2727229233, 
      243349564] =
      [0, 0, 0, 0, 0, 0, 0, 0, 1667457890, 1667457890, 1667457890, 1667457890, 4227595178, 
      4227595178, 4227595178, 4227595178, 3479989359, 2886668045, 3479989359, 2886668045, 
      1787661693, 2440459991, 1787661693, 2440459991, 3253556307, 1843551070, 2727229233, 
      243349564, 3246492310, 1358429249, 981102908, 2869692395, 680503966, 1164833216] := by decide

theorem rk0_stage_e :
    (List.range' 34 7).foldl (fun rk i => rk ++ [aes_key_expand_word rk i])
      [0, 0, 0, 0, 0, 0, 0, 0, 1667457890, 1667457890, 1667457890, 1667457890, 4227595178, 
      4227595178, 4227595178, 4227595178, 3479989359, 2886668045, 3479989359, 2886668045, 
      1787661693, 2440459991, 1787661693, 2440459991, 3253556307, 1843551070, 2727229233, 
      243349564, 3246492310, 1358429249, 981102908, 2869692395, 680503966, 1164833216] =
      [0, 0, 0, 0, 0, 0, 0, 0, 1667457890, 1667457890, 1667457890, 1667457890, 4227595178, 
      4227595178, 4227595178, 4227595178, 3479989359, 2886668045, 3479989359, 2886668045, 
      1787661693, 2440459991, 1787661693, 2440459991, 3253556307, 1843551070, 2727229233, 
      243349564, 3246492310, 1358429249, 981102908, 2869692395, 680503966, 1164833216, 
      3890464497, 3915579085, 3744149803, 2413612394, 3047603286, 514505661, 1392313956] := by decide

theorem rk0_stage_f :
    (List.range' 41 6).foldl (fun rk i => rk ++ [aes_key_expand_word rk i])
      [0, 0, 0, 0, 0, 0, 0, 0, 1667457890, 1667457890, 1667457890, 1667457890, 4227595178, 
      4227595178, 4227595178, 4227595178, 3479989359, 2886668045, 3479989359, 2886668045, 
      1787661693, 2440459991, 1787661693, 2440459991, 3253556307, 1843551070, 2727229233, 
      243349564, 3246492310, 1358429249, 981102908, 2869692395, 680503966, 1164833216, 
      3890464497, 3915579085, 3744149803, 2413612394, 3047603286, 514505661, 1392313956] =
      [0, 0, 0, 0, 0, 0, 0, 0, 1667457890, 1667457890, 1667457890, 1667457890, 4227595178, 
      4227595178, 4227595178, 4227595178, 3479989359, 2886668045, 3479989359, 2886668045, 
      1787661693, 2440459991, 1787661693, 2440459991, 3253556307, 1843551070, 2727229233, 
      243349564, 3246492310, 1358429249, 981102908, 2869692395, 680503966, 1164833216, 
      3890464497, 3915579085, 3744149803, 2413612394, 3047603286, 514505661, 1392313956, 
      395376548, 4034081109, 420597656, 195672941, 2222290439, 835963473] := by decide

theorem rk0_stage_g :
    (List.range' 47 7).foldl (fun rk i => rk ++ [aes_key_expand_word rk i])
      [0, 0, 0, 0, 0, 0, 0, 0, 1667457890, 1667457890, 1667457890, 1667457890, 4227595178, 
      4227595178, 4227595178, 4227595178, 3479989359, 2886668045, 3479989359, 2886668045, 
      1787661693, 2440459991, 1787661693, 2440459991, 3253556307, 1843551070, 2727229233, 
      243349564, 3246492310, 1358429249, 981102908, 2869692395, 680503966, 1164833216, 
      3890464497, 3915579085, 3744149803, 2413612394, 3047603286, 514505661, 1392313956, 
      395376548, 4034081109, 420597656, 195672941, 2222290439, 835963473] =
      [0, 0, 0, 0, 0, 0, 0, 0, 1667457890, 1667457890, 1667457890, 1667457890, 4227595178, 
      4227595178, 4227595178, 4227595178, 3479989359, 2886668045, 3479989359, 2886668045, 
      1787661693, 2440459991, 1787661693, 2440459991, 3253556307, 1843551070, 2727229233, 
      243349564, 3246492310, 1358429249, 981102908, 2869692395, 680503966, 1164833216, 
      3890464497, 3915579085, 3744149803, 2413612394, 3047603286, 514505661, 1392313956, 
      395376548, 4034081109, 420597656, 195672941, 2222290439, 835963473, 796488172, 
      2632495335, 2339915587, 2064348694, 1645918606, 2701913460, 629054323] := by decide

theorem rk0_stage_h :
    (List.range' 54 6).foldl (fun rk i => rk ++ [aes_key_expand_word rk i])
      [0, 0, 0, 0, 0, 0, 0, 0, 1667457890, 1667457890, 1667457890, 1667457890, 4227595178, 
      4227595178, 4227595178, 4227595178, 3479989359, 2886668045, 3479989359, 2886668045, 
      1787661693, 2440459991, 1787661693, 2440459991, 3253556307, 1843551070, 2727229233, 
      243349564, 3246492310, 1358429249, 981102908, 2869692395, 680503966, 1164833216, 
      3890464497, 3915579085, 3744149803, 2413612394, 3047603286, 514505661, 1392313956, 
      395376548, 4034081109, 420597656, 195672941, 2222290439, 835963473, 796488172, 
      2632495335, 2339915587, 2064348694, 1645918606, 2701913460, 629054323] =
      rk0 := by decide

theorem rk0_eval : aes256_key_expand_scalar key0 = rk0 := by
  simp only [aes256_key_expand_scalar]
  rw [show List.range' 8 52 =
    List.range' 8 7 ++ (List.range' 15 7 ++ (List.range' 22 6 ++ (List.range' 28 6 ++ (List.range' 34 7 ++ (List.range' 41 6 ++ (List.range' 47 7 ++ (List.range' 54 6))))))) from by decide]
  rw [List.foldl_append, List.foldl_append, List.foldl_append, List.foldl_append,
    List.foldl_append, List.foldl_append, List.foldl_append]
  rw [rk0_stage_a, rk0_stage_b, rk0_stage_c, rk0_stage_d, rk0_stage_e, rk0_stage_f, rk0_stage_g, rk0_stage_h]

theorem aes_h0_s0 :
    aes_add_round_key ((List.range 4).map fun i => soliton_le32 (zero16.drop (i * 4)))
      rk0 0 = [0, 0, 0, 0] := by decide

theorem aes_h0_r1 :
    aes_round rk0 [0, 0, 0, 0] 1 =
      [1667457891, 1667457891, 1667457891, 1667457891] := by decide

theorem aes_h0_r2 :
    aes_round rk0 [1667457891, 1667457891, 1667457891, 1667457891] 2 =
      [2560137369, 2560137369, 2560137369, 2560137369] := by decide

theorem aes_h0_r3 :
    aes_round rk0 [2560137369, 2560137369, 2560137369, 2560137369] 3 =
      [1578440103, 1578440103, 1578440103, 1578440103] := by decide

theorem aes_h0_r4 :
    aes_round rk0 [1578440103, 1578440103, 1578440103, 1578440103] 4 =
      [2603823421, 4166013535, 2603823421, 4166013535] := by decide

theorem aes_h0_r5 :
    aes_round rk0 [2603823421, 4166013535, 2603823421, 4166013535] 5 =
      [1123333553, 1743048007, 1123333553, 1743048007] := by decide

theorem aes_h0_r6 :
    aes_round rk0 [1123333553, 1743048007, 1123333553, 1743048007] 6 =
      [2439619134, 1915870500, 4060791132, 290635334] := by decide

theorem aes_h0_r7 :
    aes_round rk0 [2439619134, 1915870500, 4060791132, 290635334] 7 =
      [3047262804, 1797372708, 867642616, 2977559135] := by decide

theorem aes_h0_r8 :
    aes_round rk0 [3047262804, 1797372708, 867642616, 2977559135] 8 =
      [2152689050, 1765355868, 1640933310, 3177976564] := by decide

theorem aes_h0_r9 :
    aes_round rk0 [2152689050, 1765355868, 1640933310, 3177976564] 9 =
      [3034046691, 3693478535, 4173526316, 791127393] := by decide

theorem aes_h0_r10 :
    aes_round rk0 [3034046691, 3693478535, 4173526316, 791127393] 10 =
      [435061743, 91158010, 2089408565, 2804529875] := by decide

theorem aes_h0_r11 :
    aes_round rk0 [435061743, 91158010, 2089408565, 2804529875] 11 =
      [2283871490, 2215623055, 2589768738, 3605429888] := by decide

theorem aes_h0_r12 :
    aes_round rk0 [2283871490, 2215623055, 2589768738, 3605429888] 12 =
      [3999023951, 1715385152, 1701534599, 2538341686] := by decide

theorem aes_h0_r13 :
    aes_round rk0 [3999023951, 1715385152, 1701534599, 2538341686] 13 =
      [798997031, 2120528683, 1779465672, 107188501] := by decide

theorem aes_h0_fin :
    (aes_add_round_key (aes_shift_rows
        (([798997031, 2120528683, 1779465672, 107188501] : List Nat).map aes_sbox_word))
      rk0 (14 * 4)).flatMap soliton_put_le32 = h0 := by decide

theorem h0_eval : aes256_encrypt_block_scalar rk0 (zero16) = h0 := by
  rw [aes_block_rounds]
  rw [show List.range' 1 13 = [1, 2, 3, 4, 5, 6, 7, 8, 9, 10, 11, 12, 13] from by decide]
  simp only [List.foldl_cons, List.foldl_nil]
  rw [aes_h0_s0, aes_h0_r1, aes_h0_r2, aes_h0_r3, aes_h0_r4, aes_h0_r5, aes_h0_r6, aes_h0_r7, aes_h0_r8, aes_h0_r9, aes_h0_r10, aes_h0_r11, aes_h0_r12, aes_h0_r13, aes_h0_fin]

theorem hp0_head : (ghash_precompute_powers_scalar h0).getD 0 zero16 = h0 := by decide

theorem init_j0_ghash_eval : aesgcm_init_j0_ghash h0 iv8z = j0_init8 := by decide

theorem reset_j0_ghash_eval : aesgcm_reset_j0_ghash h0 iv8z = j0_reset8 := by decide

theorem nist_j0_eval : j0_nist_spec h0 iv8z = j0_nist8 := by decide

/-- C3.  The claim fails on the code: for the all-zero key (so that
H = AES_K(0) is the context's own subkey) and an 8-byte IV, the J0 that
`soliton_aesgcm_init` stores differs from the NIST SP 800-38D section 7.1
value.  The init path assembles only `(s + 128)/8` padding bytes but
places the IV remainder inside that same buffer, so the GHASH input ends
with the partial block `0^(8-r) || [len]_64` zero-padded on the right,
instead of the full block `0^64 || [len]_64`; this diverges for every IV
length that is not a multiple of 16 bytes (12 aside). -/
theorem init_j0_ne_nist :
    (soliton_aesgcm_init aesgcm_fresh (some key0) (some iv8z)).2.j0 ≠
      j0_nist_spec (soliton_aesgcm_init aesgcm_fresh (some key0) (some iv8z)).2.h iv8z := by
  have hinit : (soliton_aesgcm_init aesgcm_fresh (some key0) (some iv8z)).2 =
      aesgcm_init_core key0 iv8z := rfl
  rw [hinit]
  simp only [aesgcm_init_core]
  rw [rk0_eval, h0_eval, hp0_head]
  rw [if_neg (by decide : ¬(iv8z.length = 12))]
  rw [init_j0_ghash_eval, nist_j0_eval]
  decide

/-! ## Small-step reduction lemmas for the state machine -/

theorem init_ok (c : AesGcmCtx) (key iv : List Nat) (hiv : iv.length ≠ 0) :
    soliton_aesgcm_init c (some key) (some iv) = (.ok, aesgcm_init_core key iv) := by
  simp [soliton_aesgcm_init, hiv]

theorem encrypt_update_nil (c : AesGcmCtx) (pt : Option (List Nat)) (cn : Bool)
    (hst : c.state ≠ .FINAL) (hrdy : c.h_powers_ready = true) :
    soliton_aesgcm_encrypt_update c pt cn 0 =
      (.ok, [], { c with state := .UPDATE, ct_len := u64 c.ct_len }) := by
  simp [soliton_aesgcm_encrypt_update, hst, hrdy, enc_batches_go,
    aes256_ctr_blocks_scalar]

theorem encrypt_final_ok (c : AesGcmCtx) (hst : c.state ≠ .FINAL) :
    soliton_aesgcm_encrypt_final c false =
      (.ok, aesgcm_compute_tag c, { c with state := .FINAL }) := by
  simp [soliton_aesgcm_encrypt_final, hst]

theorem reset_ok (c : AesGcmCtx) (iv : List Nat) (hiv : iv.length ≠ 0)
    (hb : c.backend_set = true) :
    soliton_aesgcm_reset c (some iv) =
      (.ok, { c with
              ghash_state := zero16
              buffer := zero16
              aad_len := 0
              ct_len := 0
              buffer_len := 0
              j0 := if iv.length = 12 then aesgcm_j0_96 iv
                    else aesgcm_reset_j0_ghash (c.h_powers.getD 0 zero16) iv
              counter := 2
              state := .INIT }) := by
  simp [soliton_aesgcm_reset, hiv, hb]

/-! ## C4: context reuse via reset vs. fresh init -/

theorem aes_er8_s0 :
    aes_add_round_key ((List.range 4).map fun i => soliton_le32 ((ctr_block j0_reset8 1).drop (i * 4)))
      rk0 0 = [367902077, 18757466, 3949929970, 16777216] := by decide

theorem aes_er8_r1 :
    aes_round rk0 [367902077, 18757466, 3949929970, 16777216] 1 =
      [3500822404, 934034460, 1321520261, 1692264659] := by decide

theorem aes_er8_r2 :
    aes_round rk0 [3500822404, 934034460, 1321520261, 1692264659] 2 =
      [4079654565, 3065856301, 3650727127, 2194248071] := by decide

theorem aes_er8_r3 :
    aes_round rk0 [4079654565, 3065856301, 3650727127, 2194248071] 3 =
      [3129793221, 3724831609, 293049989, 1121414240] := by decide

theorem aes_er8_r4 :
    aes_round rk0 [3129793221, 3724831609, 293049989, 1121414240] 4 =
      [3962575968, 3302443, 1665460947, 2112552511] := by decide

theorem aes_er8_r5 :
    aes_round rk0 [3962575968, 3302443, 1665460947, 2112552511] 5 =
      [3157395943, 509398773, 3120425216, 1557118554] := by decide

theorem aes_er8_r6 :
    aes_round rk0 [3157395943, 509398773, 3120425216, 1557118554] 6 =
      [763657208, 45769028, 1855128655, 810552388] := by decide

theorem aes_er8_r7 :
    aes_round rk0 [763657208, 45769028, 1855128655, 810552388] 7 =
      [964720102, 2009806321, 3794240542, 1988085461] := by decide

theorem aes_er8_r8 :
    aes_round rk0 [964720102, 2009806321, 3794240542, 1988085461] 8 =
      [2338088140, 337285560, 4188045034, 1165059568] := by decide

theorem aes_er8_r9 :
    aes_round rk0 [2338088140, 337285560, 4188045034, 1165059568] 9 =
      [3213375147, 291086114, 3488449828, 1502270784] := by decide

theorem aes_er8_r10 :
    aes_round rk0 [3213375147, 291086114, 3488449828, 1502270784] 10 =
      [4155047240, 1081137997, 1917375610, 3272933572] := by decide

theorem aes_er8_r11 :
    aes_round rk0 [4155047240, 1081137997, 1917375610, 3272933572] 11 =
      [1251235941, 2077525555, 4159603344, 2387834425] := by decide

theorem aes_er8_r12 :
    aes_round rk0 [1251235941, 2077525555, 4159603344, 2387834425] 12 =
      [362419328, 2617792720, 2205426077, 2789920564] := by decide

theorem aes_er8_r13 :
    aes_round rk0 [362419328, 2617792720, 2205426077, 2789920564] 13 =
      [1577025021, 749679104, 1667960189, 444164919] := by decide

theorem aes_er8_fin :
    (aes_add_round_key (aes_shift_rows
        (([1577025021, 749679104, 1667960189, 444164919] : List Nat).map aes_sbox_word))
      rk0 (14 * 4)).flatMap soliton_put_le32 = e_reset8 := by decide

theorem e_reset8_eval : aes256_encrypt_block_scalar rk0 (ctr_block j0_reset8 1) = e_reset8 := by
  rw [aes_block_rounds]
  rw [show List.range' 1 13 = [1, 2, 3, 4, 5, 6, 7, 8, 9, 10, 11, 12, 13] from by decide]
  simp only [List.foldl_cons, List.foldl_nil]
  rw [aes_er8_s0, aes_er8_r1, aes_er8_r2, aes_er8_r3, aes_er8_r4, aes_er8_r5, aes_er8_r6, aes_er8_r7, aes_er8_r8, aes_er8_r9, aes_er8_r10, aes_er8_r11, aes_er8_r12, aes_er8_r13, aes_er8_fin]

theorem aes_ei8_s0 :
    aes_add_round_key ((List.range 4).map fun i => soliton_le32 ((ctr_block j0_init8 1).drop (i * 4)))
      rk0 0 = [3949929950, 1230116897, 1362944074, 16777216] := by decide

theorem aes_ei8_r1 :
    aes_round rk0 [3949929950, 1230116897, 1362944074, 16777216] 1 =
      [2583234113, 1476028499, 3702769793, 590662742] := by decide

theorem aes_ei8_r2 :
    aes_round rk0 [2583234113, 1476028499, 3702769793, 590662742] 2 =
      [2568354811, 2021622646, 333451877, 4269210881] := by decide

theorem aes_ei8_r3 :
    aes_round rk0 [2568354811, 2021622646, 333451877, 4269210881] 3 =
      [2316809409, 2236869708, 1116686633, 1487964652] := by decide

theorem aes_ei8_r4 :
    aes_round rk0 [2316809409, 2236869708, 1116686633, 1487964652] 4 =
      [780299471, 4148829323, 1496776875, 3724132551] := by decide

theorem aes_ei8_r5 :
    aes_round rk0 [780299471, 4148829323, 1496776875, 3724132551] 5 =
      [1894535318, 1314000032, 3050036503, 3406936749] := by decide

theorem aes_ei8_r6 :
    aes_round rk0 [1894535318, 1314000032, 3050036503, 3406936749] 6 =
      [3046907249, 3073371662, 3447476780, 1210310189] := by decide

theorem aes_ei8_r7 :
    aes_round rk0 [3046907249, 3073371662, 3447476780, 1210310189] 7 =
      [2749111281, 561309951, 592571022, 143003167] := by decide

theorem aes_ei8_r8 :
    aes_round rk0 [2749111281, 561309951, 592571022, 143003167] 8 =
      [4200365712, 2825532464, 5963358, 3277385736] := by decide

theorem aes_ei8_r9 :
    aes_round rk0 [4200365712, 2825532464, 5963358, 3277385736] 9 =
      [2235995731, 146814963, 79428577, 2043155378] := by decide

theorem aes_ei8_r10 :
    aes_round rk0 [2235995731, 146814963, 79428577, 2043155378] 10 =
      [2038716236, 3539685584, 2752703827, 2513757205] := by decide

theorem aes_ei8_r11 :
    aes_round rk0 [2038716236, 3539685584, 2752703827, 2513757205] 11 =
      [3190054441, 2114044646, 1512939969, 46057205] := by decide

theorem aes_ei8_r12 :
    aes_round rk0 [3190054441, 2114044646, 1512939969, 46057205] 12 =
      [2069519222, 3647662610, 2359678180, 277206387] := by decide

theorem aes_ei8_r13 :
    aes_round rk0 [2069519222, 3647662610, 2359678180, 277206387] 13 =
      [3892117594, 4171841940, 2030031486, 1120583654] := by decide

theorem aes_ei8_fin :
    (aes_add_round_key (aes_shift_rows
        (([3892117594, 4171841940, 2030031486, 1120583654] : List Nat).map aes_sbox_word))
      rk0 (14 * 4)).flatMap soliton_put_le32 = e_init8 := by decide

theorem e_init8_eval : aes256_encrypt_block_scalar rk0 (ctr_block j0_init8 1) = e_init8 := by
  rw [aes_block_rounds]
  rw [show List.range' 1 13 = [1, 2, 3, 4, 5, 6, 7, 8, 9, 10, 11, 12, 13] from by decide]
  simp only [List.foldl_cons, List.foldl_nil]
  rw [aes_ei8_s0, aes_ei8_r1, aes_ei8_r2, aes_ei8_r3, aes_ei8_r4, aes_ei8_r5, aes_ei8_r6, aes_ei8_r7, aes_ei8_r8, aes_ei8_r9, aes_ei8_r10, aes_ei8_r11, aes_ei8_r12, aes_ei8_r13, aes_ei8_fin]

theorem c4_tag_via_reset_eval : c4_tag_via_reset = e_reset8 := by
  have h1 : (soliton_aesgcm_init aesgcm_fresh (some key0) (some iv12z)).2 =
      aesgcm_init_core key0 iv12z := rfl
  have h2 := encrypt_update_nil (aesgcm_init_core key0 iv12z) (some []) false
    (by decide) (by decide)
  have h3 := encrypt_final_ok { aesgcm_init_core key0 iv12z with
    state := .UPDATE
    ct_len := u64 (aesgcm_init_core key0 iv12z).ct_len } (by decide)
  have h4 := reset_ok { aesgcm_init_core key0 iv12z with
    state := AesState.FINAL
    ct_len := u64 (aesgcm_init_core key0 iv12z).ct_len } iv8z (by decide) (by decide)
  simp only [c4_tag_via_reset, h1, h2, h3, h4]
  rw [encrypt_update_nil _ (some []) false (by decide) (by decide)]
  rw [encrypt_final_ok _ (by decide)]
  simp only [aesgcm_compute_tag, aesgcm_init_core]
  rw [rk0_eval, h0_eval, hp0_head]
  rw [if_neg (by decide : ¬(iv8z.length = 12)), reset_j0_ghash_eval, e_reset8_eval]
  decide

theorem c4_tag_fresh_eval : c4_tag_fresh = e_init8 := by
  have h1 : (soliton_aesgcm_init aesgcm_fresh (some key0) (some iv8z)).2 =
      aesgcm_init_core key0 iv8z := rfl
  have h2 := encrypt_update_nil (aesgcm_init_core key0 iv8z) (some []) false
    (by decide) (by decide)
  simp only [c4_tag_fresh, h1, h2]
  rw [encrypt_final_ok _ (by decide)]
  simp only [aesgcm_compute_tag, aesgcm_init_core]
  rw [rk0_eval, h0_eval, hp0_head]
  rw [if_neg (by decide : ¬(iv8z.length = 12)), init_j0_ghash_eval, e_init8_eval]
  decide

/-- C4.  Context reuse via reset does not reproduce a fresh init for every
IV length: with key0, IV1 = 12 zero bytes, msg1 = msg2 = empty, and
IV2 = 8 zero bytes, the tag produced after reset(IV2) differs from the
tag produced by a fresh init(key0, IV2) — the init and reset paths
assemble different GHASH inputs for a non-96-bit IV (init feeds
`(s+128)/8` padding bytes, reset a single 16-byte final block), so they
derive different J0 values. -/
theorem reset_encrypt_ne_fresh_init_encrypt : c4_tag_via_reset ≠ c4_tag_fresh := by
  rw [c4_tag_via_reset_eval, c4_tag_fresh_eval]
  decide

/-! ## Infrastructure for the round-trip proof -/

theorem lor_eq_zero (a b : Nat) (h : a ||| b = 0) : a = 0 ∧ b = 0 := by
  constructor <;>
  · apply Nat.eq_of_testBit_eq
    intro i
    have hb := congrArg (fun x => x.testBit i) h
    simp only [Nat.testBit_or, Nat.zero_testBit, Bool.or_eq_false_iff] at hb
    simp [hb.1, hb.2, Nat.zero_testBit]

theorem put_le32_length (v : Nat) : (soliton_put_le32 v).length = 4 := rfl

theorem aes_add_round_key_length (st rk : List Nat) (off : Nat) :
    (aes_add_round_key st rk off).length = 4 := by
  simp [aes_add_round_key]

theorem aes_block_length (rk inp : List Nat) :
    (aes256_encrypt_block_scalar rk inp).length = 16 := by
  unfold aes256_encrypt_block_scalar
  have h4 : ∀ l : List Nat, l.length = 4 → (l.flatMap soliton_put_le32).length = 16 := by
    intro l hl
    match l, hl with
    | [a, b, c, d], _ => simp [soliton_put_le32]
  apply h4
  apply aes_add_round_key_length

theorem zip_xor_cancel : ∀ (a b : List Nat), a.length ≤ b.length →
    List.zipWith Nat.xor (List.zipWith Nat.xor a b) b = a
  | [], _, _ => by simp
  | x :: a, y :: b, h => by
    simp only [List.zipWith]
    have hx : Nat.xor (Nat.xor x y) y = x := Nat.xor_cancel_right y x
    rw [hx, zip_xor_cancel a b (by simpa using h)]

theorem zip_xor_length (a b : List Nat) (h : a.length ≤ b.length) :
    (List.zipWith Nat.xor a b).length = a.length := by
  simp [List.length_zipWith]; omega

theorem ghash_nil (st h : List Nat) : ghash_update_scalar st h [] = st := rfl

theorem ghash_blocks_go_append (h : List Nat) :
    ∀ (n : Nat) (st xs ys : List Nat) (m : Nat), xs.length = 16 * n →
      ghash_blocks_go h (n + m) st (xs ++ ys) =
        ghash_blocks_go h m (ghash_blocks_go h n st xs) ys
  | 0, st, xs, ys, m, hx => by
    have : xs = [] := List.eq_nil_of_length_eq_zero (by omega)
    subst this
    simp [ghash_blocks_go]
  | n + 1, st, xs, ys, m, hx => by
    have h16 : 16 ≤ xs.length := by omega
    have hxs : (xs.take 16).length = 16 := by simp [List.length_take]; omega
    rw [show n + 1 + m = (n + m) + 1 from by omega]
    simp only [ghash_blocks_go]
    rw [List.take_append_of_le_length h16, List.drop_append_of_le_length h16]
    rw [ghash_blocks_go_append h n _ (xs.drop 16) ys m (by simp [List.length_drop]; omega)]

theorem ghash_append (st h xs ys : List Nat) (n : Nat) (hx : xs.length = 16 * n) :
    ghash_update_scalar st h (xs ++ ys) =
      ghash_update_scalar (ghash_update_scalar st h xs) h ys := by
  unfold ghash_update_scalar
  have hdiv : (xs ++ ys).length / 16 = n + ys.length / 16 := by
    simp only [List.length_append, hx]
    omega
  have hdiv2 : xs.length / 16 = n := by omega
  rw [hdiv, hdiv2, ghash_blocks_go_append h n st xs ys _ hx]

theorem ctr_blocks_length (rk j0 : List Nat) :
    ∀ (n : Nat) (ctr : Nat) (pts : List Nat), 16 * n ≤ pts.length →
      (aes256_ctr_blocks_scalar rk j0 ctr pts n).length = 16 * n
  | 0, _, _, _ => by simp [aes256_ctr_blocks_scalar]
  | n + 1, ctr, pts, hl => by
    simp only [aes256_ctr_blocks_scalar, List.length_append]
    rw [ctr_blocks_length rk j0 n (ctr + 1) (pts.drop 16) (by simp only [List.length_drop]; omega)]
    rw [zip_xor_length _ _ (by simp only [List.length_take, aes_block_length]; omega)]
    simp only [List.length_take]
    omega

theorem ctr_block_congr (j0 : List Nat) (a b : Nat) (hab : u32 a = u32 b) :
    ctr_block j0 a = ctr_block j0 b := by
  simp only [ctr_block, soliton_put_be32, u32] at hab ⊢
  rw [hab]

theorem ctr_blocks_congr (rk j0 : List Nat) :
    ∀ (n : Nat) (a b : Nat) (pts : List Nat), u32 a = u32 b →
      aes256_ctr_blocks_scalar rk j0 a pts n = aes256_ctr_blocks_scalar rk j0 b pts n
  | 0, _, _, _, _ => rfl
  | n + 1, a, b, pts, hab => by
    simp only [aes256_ctr_blocks_scalar]
    rw [ctr_block_congr j0 a b hab]
    rw [ctr_blocks_congr rk j0 n (a + 1) (b + 1) (pts.drop 16) (Nat.ModEq.add_right 1 hab)]

theorem ctr_blocks_append (rk j0 : List Nat) :
    ∀ (n : Nat) (ctr : Nat) (pts qts : List Nat) (m : Nat), pts.length = 16 * n →
      aes256_ctr_blocks_scalar rk j0 ctr (pts ++ qts) (n + m) =
        aes256_ctr_blocks_scalar rk j0 ctr pts n ++
          aes256_ctr_blocks_scalar rk j0 (ctr + n) qts m
  | 0, ctr, pts, qts, m, hp => by
    have : pts = [] := List.eq_nil_of_length_eq_zero (by omega)
    subst this
    simp [aes256_ctr_blocks_scalar]
  | n + 1, ctr, pts, qts, m, hp => by
    have h16 : 16 ≤ pts.length := by omega
    rw [show n + 1 + m = (n + m) + 1 from by omega]
    simp only [aes256_ctr_blocks_scalar]
    rw [List.take_append_of_le_length h16, List.drop_append_of_le_length h16]
    rw [ctr_blocks_append rk j0 n (ctr + 1) (pts.drop 16) qts m (by simp [List.length_drop]; omega)]
    simp only [List.append_assoc]
    rw [show ctr + 1 + n = ctr + (n + 1) from by omega]

theorem ctr_blocks_cancel (rk j0 : List Nat) :
    ∀ (n : Nat) (ctr : Nat) (pts : List Nat), pts.length = 16 * n →
      aes256_ctr_blocks_scalar rk j0 ctr (aes256_ctr_blocks_scalar rk j0 ctr pts n) n = pts
  | 0, _, pts, hp => by
    have : pts = [] := List.eq_nil_of_length_eq_zero (by omega)
    subst this
    rfl
  | n + 1, ctr, pts, hp => by
    have hks := aes_block_length rk (ctr_block j0 ctr)
    have htk : (pts.take 16).length = 16 := by simp [List.length_take]; omega
    have hct1 : (List.zipWith Nat.xor (pts.take 16)
        (aes256_encrypt_block_scalar rk (ctr_block j0 ctr))).length = 16 := by
      rw [zip_xor_length _ _ (by omega)]; omega
    simp only [aes256_ctr_blocks_scalar]
    rw [List.take_left' hct1, List.drop_left' hct1]
    rw [zip_xor_cancel _ _ (by omega)]
    rw [ctr_blocks_cancel rk j0 n (ctr + 1) (pts.drop 16) (by simp [List.length_drop]; omega)]
    exact List.take_append_drop 16 pts

theorem u32_add_left (x k : Nat) : u32 (u32 x + k) = u32 (x + k) := Nat.mod_add_mod x (2^32) k

theorem u32_ctr_after (ctr n : Nat) : u32 (ctr_after ctr n) = u32 (ctr + n) := by
  unfold ctr_after
  split
  · simp [*]
  · simp only [u32]
    omega

theorem ctr_after_add (ctr a b : Nat) (ha : a ≠ 0) :
    ctr_after (u32 (ctr + a)) b = ctr_after ctr (a + b) := by
  unfold ctr_after
  rcases Nat.eq_zero_or_pos b with hb | hb
  · subst hb
    simp [ha]
  · rw [if_neg (by omega), if_neg (by omega), u32_add_left]
    rw [Nat.add_assoc]

theorem ctr_after_apply (ctr a b : Nat) :
    ctr_after (ctr_after ctr a) b = ctr_after ctr (a + b) := by
  rcases Nat.eq_zero_or_pos a with ha | ha
  · subst ha
    simp [ctr_after]
  · rw [show ctr_after ctr a = u32 (ctr + a) from if_neg (by omega)]
    exact ctr_after_add ctr a b (by omega)

theorem enc_batches_eq (rk j0 h1 : List Nat) :
    ∀ (fb : Nat) (ctr : Nat) (st pts : List Nat), pts.length = 128 * fb →
      enc_batches_go rk j0 h1 fb ctr st pts =
        (aes256_ctr_blocks_scalar rk j0 ctr pts (8 * fb),
         ghash_update_scalar st h1 (aes256_ctr_blocks_scalar rk j0 ctr pts (8 * fb)),
         ctr_after ctr (8 * fb))
  | 0, ctr, st, pts, hp => by
    have : pts = [] := List.eq_nil_of_length_eq_zero (by omega)
    subst this
    simp [enc_batches_go, aes256_ctr_blocks_scalar, ghash_nil, ctr_after]
  | fb + 1, ctr, st, pts, hp => by
    have h128 : (pts.take 128).length = 128 := by simp only [List.length_take]; omega
    have hdrop : (pts.drop 128).length = 128 * fb := by simp only [List.length_drop]; omega
    have hctb := ctr_blocks_length rk j0 8 ctr (pts.take 128) (by omega)
    simp only [enc_batches_go]
    rw [enc_batches_eq rk j0 h1 fb (u32 (ctr + 8)) _ (pts.drop 128) hdrop]
    rw [ctr_blocks_congr rk j0 (8 * fb) (u32 (ctr + 8)) (ctr + 8) (pts.drop 128)
      (by simp [u32, Nat.mod_mod_of_dvd])]
    have hsplit : aes256_ctr_blocks_scalar rk j0 ctr pts (8 * (fb + 1)) =
        aes256_ctr_blocks_scalar rk j0 ctr (pts.take 128) 8 ++
          aes256_ctr_blocks_scalar rk j0 (ctr + 8) (pts.drop 128) (8 * fb) := by
      rw [show 8 * (fb + 1) = 8 + 8 * fb from by omega]
      rw [show pts = pts.take 128 ++ pts.drop 128 from (List.take_append_drop 128 pts).symm]
      rw [ctr_blocks_append rk j0 8 ctr _ _ (8 * fb) (by omega)]
      simp [List.take_append_drop]
    rw [hsplit]
    rw [ghash_append st h1 _ _ 8 (by omega)]
    rw [show ctr_after (u32 (ctr + 8)) (8 * fb) = ctr_after ctr (8 * (fb + 1)) from by
      rw [ctr_after_add ctr 8 (8 * fb) (by omega)]; ring_nf]

theorem ctr_after_tail (ctr a t : Nat) (ht : t ≠ 0) :
    u32 (ctr_after ctr a + t) = ctr_after ctr (a + t) := by
  rcases Nat.eq_zero_or_pos a with ha | ha
  · subst ha
    simp [ctr_after, ht]
  · rw [show ctr_after ctr a = u32 (ctr + a) from if_neg (by omega)]
    rw [show ctr_after ctr (a + t) = u32 (ctr + (a + t)) from if_neg (by omega)]
    rw [u32_add_left]
    ring_nf

theorem ite_pos_eq {α : Sort _} (n : Nat) (y d : α) (h : n = 0 → y = d) :
    (if 0 < n then y else d) = y := by
  rcases Nat.eq_zero_or_pos n with hn | hn
  · rw [if_neg (by omega), h hn]
  · rw [if_pos hn]

theorem ctr_blocks_zero (rk iv : List Nat) (c : Nat) (xs : List Nat) :
    aes256_ctr_blocks_scalar rk iv c xs 0 = [] := rfl

theorem ghash_ctr_zero (st h rk iv : List Nat) (ctr : Nat) (xs : List Nat) :
    ghash_update_scalar st h (aes256_ctr_blocks_scalar rk iv ctr xs 0) = st := by
  rw [ctr_blocks_zero, ghash_nil]

theorem gcm_ct_length (rk j0 : List Nat) (ctr : Nat) (data : List Nat) :
    (gcm_ct rk j0 ctr data).length = data.length := by
  unfold gcm_ct
  have h1 : data.length / 16 * 16 <= data.length := Nat.div_mul_le_self _ _
  simp only [List.length_append]
  rw [ctr_blocks_length rk j0 _ ctr _ (by simp only [List.length_take]; omega)]
  rw [zip_xor_length _ _ (by simp only [List.length_drop, aes_block_length]; omega)]
  simp only [List.length_drop]
  omega

set_option maxHeartbeats 1000000 in
theorem encrypt_update_ok (c : AesGcmCtx) (pt : List Nat)
    (hst : c.state ≠ .FINAL) (hrdy : c.h_powers_ready = true) :
    soliton_aesgcm_encrypt_update c (some pt) false pt.length =
      (.ok, gcm_ct c.round_keys c.j0 c.counter pt,
       { c with
         state := .UPDATE
         ct_len := u64 (c.ct_len + pt.length)
         counter := gcm_ctr_final c.counter pt.length
         ghash_state := ghash_update_scalar c.ghash_state (c.h_powers.getD 0 zero16)
           (gcm_ct c.round_keys c.j0 c.counter pt) }) := by
  have hfb : (pt.take (pt.length / 16 / 8 * 128)).length = 128 * (pt.length / 16 / 8) := by
    simp only [List.length_take]
    omega
  simp only [soliton_aesgcm_encrypt_update, Option.getD_some, List.take_length]
  rw [if_neg (by simp)]
  rw [if_neg hst]
  rw [hrdy, if_pos rfl]
  rw [enc_batches_eq c.round_keys c.j0 (c.h_powers.getD 0 zero16) _ c.counter c.ghash_state _ hfb]
  simp only []
  rw [ctr_blocks_congr c.round_keys c.j0 (pt.length / 16 % 8)
    (ctr_after c.counter (8 * (pt.length / 16 / 8))) (c.counter + 8 * (pt.length / 16 / 8))
    (List.take (pt.length / 16 % 8 * 16) (List.drop (pt.length / 16 / 8 * 128) pt))
    (u32_ctr_after _ _)]
  rw [show (if 0 < pt.length / 16 % 8 then
      u32 (ctr_after c.counter (8 * (pt.length / 16 / 8)) + pt.length / 16 % 8)
    else ctr_after c.counter (8 * (pt.length / 16 / 8))) = ctr_after c.counter (pt.length / 16) from by
    rcases Nat.eq_zero_or_pos (pt.length / 16 % 8) with hT | hT
    · rw [if_neg (by omega), show 8 * (pt.length / 16 / 8) = pt.length / 16 from by omega]
    · rw [if_pos hT, ctr_after_tail _ _ _ (by omega),
        show 8 * (pt.length / 16 / 8) + pt.length / 16 % 8 = pt.length / 16 from by omega]]
  rw [ite_pos_eq (pt.length / 16 % 8) _ _ (fun hT => by rw [hT]; rw [ghash_ctr_zero])]
  rw [ite_pos_eq (pt.length % 16) _ _ (fun hR => by
    rw [show pt.length / 16 * 16 = pt.length from by omega, List.drop_length,
      List.zipWith_nil_left])]
  rw [ite_pos_eq (pt.length % 16) _ _ (fun hR => by
    rw [show pt.length / 16 * 16 = pt.length from by omega, List.drop_length,
      List.zipWith_nil_left]
    rw [ghash_nil])]
  rw [show (if 0 < pt.length % 16 then u32 (ctr_after c.counter (pt.length / 16) + 1)
      else ctr_after c.counter (pt.length / 16)) = gcm_ctr_final c.counter pt.length from by
    unfold gcm_ctr_final
    rcases Nat.eq_zero_or_pos (pt.length % 16) with hR | hR
    · rw [if_neg (by omega), if_pos hR]
    · rw [if_pos hR, if_neg (by omega)]]
  have hsplit : aes256_ctr_blocks_scalar c.round_keys c.j0 c.counter
      (List.take (pt.length / 16 * 16) pt) (pt.length / 16) =
    aes256_ctr_blocks_scalar c.round_keys c.j0 c.counter (List.take (pt.length / 16 / 8 * 128) pt)
        (8 * (pt.length / 16 / 8)) ++
      aes256_ctr_blocks_scalar c.round_keys c.j0 (c.counter + 8 * (pt.length / 16 / 8))
        (List.take (pt.length / 16 % 8 * 16) (List.drop (pt.length / 16 / 8 * 128) pt))
        (pt.length / 16 % 8) := by
    have h := ctr_blocks_append c.round_keys c.j0 (8 * (pt.length / 16 / 8)) c.counter
      (List.take (pt.length / 16 / 8 * 128) pt)
      (List.take (pt.length / 16 % 8 * 16) (List.drop (pt.length / 16 / 8 * 128) pt))
      (pt.length / 16 % 8) (by simp only [List.length_take]; omega)
    rw [← List.take_add] at h
    rw [show pt.length / 16 / 8 * 128 + pt.length / 16 % 8 * 16 = pt.length / 16 * 16 from by
      omega] at h
    rw [show 8 * (pt.length / 16 / 8) + pt.length / 16 % 8 = pt.length / 16 from by omega] at h
    exact h
  have hctA_len : (aes256_ctr_blocks_scalar c.round_keys c.j0 c.counter
      (List.take (pt.length / 16 / 8 * 128) pt) (8 * (pt.length / 16 / 8))).length =
      16 * (8 * (pt.length / 16 / 8)) :=
    ctr_blocks_length _ _ _ _ _ (by simp only [List.length_take]; omega)
  rw [← ghash_append c.ghash_state (c.h_powers.getD 0 zero16) _ _ _ hctA_len]
  rw [← hsplit]
  have hfull_len : (aes256_ctr_blocks_scalar c.round_keys c.j0 c.counter
      (List.take (pt.length / 16 * 16) pt) (pt.length / 16)).length = 16 * (pt.length / 16) :=
    ctr_blocks_length _ _ _ _ _ (by simp only [List.length_take]; omega)
  rw [← ghash_append c.ghash_state (c.h_powers.getD 0 zero16) _ _ _ hfull_len]
  simp only [gcm_ct]

theorem decrypt_update_ok (c : AesGcmCtx) (ct : List Nat) (hst : c.state ≠ .FINAL) :
    soliton_aesgcm_decrypt_update c (some ct) false ct.length =
      (.ok, gcm_ct c.round_keys c.j0 c.counter ct,
       { c with
         state := .UPDATE
         ct_len := u64 (c.ct_len + ct.length)
         ghash_state := ghash_update_scalar c.ghash_state (c.h_powers.getD 0 zero16) ct
         counter := gcm_ctr_final c.counter ct.length }) := by
  simp only [soliton_aesgcm_decrypt_update, Option.getD_some, List.take_length]
  rw [if_neg (by simp)]
  rw [if_neg hst]
  rw [show (if 0 < ct.length / 16 then u32 (c.counter + ct.length / 16) else c.counter) =
      ctr_after c.counter (ct.length / 16) from by
    unfold ctr_after
    rcases Nat.eq_zero_or_pos (ct.length / 16) with hB | hB
    · rw [if_neg (by omega), if_pos hB]
    · rw [if_pos hB, if_neg (by omega)]]
  rw [ite_pos_eq (ct.length % 16) _ _ (fun hR => by
    rw [show ct.length / 16 * 16 = ct.length from by omega, List.drop_length,
      List.zipWith_nil_left])]
  rw [show (if 0 < ct.length % 16 then u32 (ctr_after c.counter (ct.length / 16) + 1)
      else ctr_after c.counter (ct.length / 16)) = gcm_ctr_final c.counter ct.length from by
    unfold gcm_ctr_final
    rcases Nat.eq_zero_or_pos (ct.length % 16) with hR | hR
    · rw [if_neg (by omega), if_pos hR]
    · rw [if_pos hR, if_neg (by omega)]]
  simp only [gcm_ct]

theorem aad_update_ok (c : AesGcmCtx) (aad : List Nat)
    (hst : c.state = .INIT ∨ c.state = .AAD) :
    soliton_aesgcm_aad_update c (some aad) aad.length =
      (.ok, { c with
              state := .AAD
              aad_len := u64 (c.aad_len + aad.length)
              ghash_state := ghash_update_scalar c.ghash_state (c.h_powers.getD 0 zero16) aad }) := by
  simp only [soliton_aesgcm_aad_update, Option.getD_some, List.take_length]
  rw [if_neg (by simp)]
  rw [if_neg (by rcases hst with h | h <;> simp [h])]

theorem gcm_ct_def (rk j0 : List Nat) (ctr : Nat) (data : List Nat) :
    gcm_ct rk j0 ctr data =
      aes256_ctr_blocks_scalar rk j0 ctr (data.take (data.length / 16 * 16))
          (data.length / 16) ++
        List.zipWith Nat.xor (data.drop (data.length / 16 * 16))
          (aes256_encrypt_block_scalar rk
            (ctr_block j0 (ctr_after ctr (data.length / 16)))) := rfl

theorem gcm_ct_cancel (rk j0 : List Nat) (ctr : Nat) (pt : List Nat) :
    gcm_ct rk j0 ctr (gcm_ct rk j0 ctr pt) = pt := by
  have hlen := gcm_ct_length rk j0 ctr pt
  have hA : (aes256_ctr_blocks_scalar rk j0 ctr (List.take (pt.length / 16 * 16) pt)
      (pt.length / 16)).length = 16 * (pt.length / 16) :=
    ctr_blocks_length _ _ _ _ _ (by simp only [List.length_take]; omega)
  rw [gcm_ct_def rk j0 ctr (gcm_ct rk j0 ctr pt), hlen, gcm_ct_def rk j0 ctr pt]
  rw [List.take_left' (by rw [hA, Nat.mul_comm])]
  rw [List.drop_left' (by rw [hA, Nat.mul_comm])]
  rw [ctr_blocks_cancel rk j0 (pt.length / 16) ctr _ (by simp only [List.length_take]; omega)]
  rw [zip_xor_cancel _ _ (by simp only [List.length_drop, aes_block_length]; omega)]
  exact List.take_append_drop _ _

theorem ct_memcmp16_self (a : List Nat) : ct_memcmp16 a a = 0 := by
  show (List.range 16).foldl (fun diff i => diff ||| (byt a i ^^^ byt a i)) 0 = 0
  simp [Nat.xor_self]

/-- C1.  GCM round-trip: for every key, IV of nonzero length, AAD and
plaintext (any lengths, including 0 and non-multiples of 16), the
sequence init / aad_update / encrypt_update / encrypt_final followed by
init / aad_update / decrypt_update / decrypt_final on the produced
ciphertext and tag returns `ok` at every step, and decrypt_update
recovers exactly the original plaintext. -/
theorem aesgcm_roundtrip (key iv aad pt : List Nat) (hiv : iv.length ≠ 0) :
    gcm_encrypt_seq key iv aad pt =
      (.ok, .ok, .ok, .ok, (gcm_encrypt_seq key iv aad pt).2.2.2.2) ∧
    gcm_decrypt_seq key iv aad (gcm_encrypt_seq key iv aad pt).2.2.2.2.1
        (gcm_encrypt_seq key iv aad pt).2.2.2.2.2 =
      (.ok, .ok, .ok, pt, .ok) := by
  simp only [gcm_encrypt_seq, gcm_decrypt_seq]
  rw [init_ok aesgcm_fresh key iv hiv]
  simp only []
  rw [aad_update_ok (aesgcm_init_core key iv) aad (Or.inl rfl)]
  simp only []
  rw [encrypt_update_ok _ pt (by simp) rfl]
  simp only []
  rw [encrypt_final_ok _ (by simp)]
  simp only []
  rw [decrypt_update_ok _ _ (by simp)]
  simp only []
  rw [gcm_ct_cancel]
  rw [gcm_ct_length]
  refine ⟨trivial, ?_⟩
  simp only [soliton_aesgcm_decrypt_final]
  rw [if_neg (by simp)]
  rw [ct_memcmp16_self]
  simp only [if_pos]

theorem aesgcm_roundtrip_witness :
    ([0] : List Nat).length ≠ 0 ∧
    (gcm_encrypt_seq key0 [0] [1, 2] [3, 4, 5] =
        (.ok, .ok, .ok, .ok, (gcm_encrypt_seq key0 [0] [1, 2] [3, 4, 5]).2.2.2.2) ∧
      gcm_decrypt_seq key0 [0] [1, 2]
          (gcm_encrypt_seq key0 [0] [1, 2] [3, 4, 5]).2.2.2.2.1
          (gcm_encrypt_seq key0 [0] [1, 2] [3, 4, 5]).2.2.2.2.2 =
        (.ok, .ok, .ok, [3, 4, 5], .ok)) :=
  ⟨by decide, aesgcm_roundtrip key0 [0] [1, 2] [3, 4, 5] (by decide)⟩

theorem ghash_final_length (st h : List Nat) (a c : Nat) :
    (ghash_final_scalar st h a c).length = 16 := rfl

theorem compute_tag_length (c : AesGcmCtx) : (aesgcm_compute_tag c).length = 16 := by
  unfold aesgcm_compute_tag
  simp only [List.length_zipWith, ghash_final_length, aes_block_length]
  rfl

theorem foldl_or_zero_iff (f : Nat → Nat) : ∀ n : Nat,
    ((List.range n).foldl (fun d i => d ||| f i) 0 = 0 ↔ ∀ i, i < n → f i = 0)
  | 0 => by simp
  | n + 1 => by
    rw [List.range_succ, List.foldl_append]
    simp only [List.foldl_cons, List.foldl_nil]
    rw [show ∀ x y : Nat, (x ||| y = 0 ↔ x = 0 ∧ y = 0) from fun x y =>
      ⟨lor_eq_zero x y, fun ⟨h1, h2⟩ => by rw [h1, h2]; rfl⟩]
    rw [foldl_or_zero_iff f n]
    constructor
    · rintro ⟨h1, h2⟩ i hi
      rcases Nat.lt_succ_iff_lt_or_eq.mp hi with hlt | heq
      · exact h1 i hlt
      · rw [heq]; exact h2
    · intro h
      exact ⟨fun i hi => h i (Nat.lt_succ_of_lt hi), h n (Nat.lt_succ_self n)⟩

theorem ct_memcmp16_zero_iff (a b : List Nat) (ha : a.length = 16) (hb : b.length = 16) :
    ct_memcmp16 a b = 0 ↔ a = b := by
  have h16 : ct_memcmp16 a b = 0 ↔ ∀ i, i < 16 → byt a i ^^^ byt b i = 0 :=
    foldl_or_zero_iff (fun i => byt a i ^^^ byt b i) 16
  rw [h16]
  constructor
  · intro h
    refine List.ext_getElem (by omega) ?_
    intro i h1 h2
    have hx := h i (by omega)
    rw [Nat.xor_eq_zero] at hx
    rw [byt, byt, List.getD_eq_getElem a 0 h1, List.getD_eq_getElem b 0 h2] at hx
    exact hx
  · intro h i hi
    rw [h, Nat.xor_self]

/-- C6.  For a context not yet finalized and a non-null 16-byte tag,
`soliton_aesgcm_decrypt_final` recomputes the tag from the current
context (GHASH state, AAD length, ciphertext length via
`aesgcm_compute_tag`), moves the state to FINAL in both outcomes, and
returns `ok` exactly when the supplied tag equals the recomputed tag,
`auth_fail` otherwise. -/
theorem decrypt_final_contract (c : AesGcmCtx) (tag : List Nat)
    (hst : c.state ≠ .FINAL) (hlen : tag.length = 16) :
    soliton_aesgcm_decrypt_final c (some tag) =
      (if tag = aesgcm_compute_tag c then .ok else .auth_fail,
       { c with state := .FINAL }) := by
  simp only [soliton_aesgcm_decrypt_final]
  rw [if_neg hst]
  have hiff := ct_memcmp16_zero_iff (aesgcm_compute_tag c) tag (compute_tag_length c) hlen
  rcases Decidable.em (tag = aesgcm_compute_tag c) with h | h
  · rw [if_pos (hiff.mpr h.symm), if_pos h]
  · rw [if_neg (fun hz => h (hiff.mp hz).symm), if_neg h]

theorem decrypt_final_contract_witness :
    aesgcm_fresh.state ≠ .FINAL ∧ zero16.length = 16 ∧
    soliton_aesgcm_decrypt_final aesgcm_fresh (some zero16) =
      (if zero16 = aesgcm_compute_tag aesgcm_fresh then .ok else .auth_fail,
       { aesgcm_fresh with state := .FINAL }) :=
  ⟨by decide, by decide, decrypt_final_contract aesgcm_fresh zero16 (by decide) (by decide)⟩

/-- C7.  Whenever a public operation returns `invalid_input`, the context
is left unchanged (every error branch of every operation returns the
context it was given). -/
theorem invalid_input_noop (c : AesGcmCtx) (key iv d tag : Option (List Nat))
    (len : Nat) (onull : Bool) :
    ((soliton_aesgcm_init c key iv).1 = .invalid_input → (soliton_aesgcm_init c key iv).2 = c) ∧
    ((soliton_aesgcm_reset c iv).1 = .invalid_input → (soliton_aesgcm_reset c iv).2 = c) ∧
    ((soliton_aesgcm_aad_update c d len).1 = .invalid_input →
      (soliton_aesgcm_aad_update c d len).2 = c) ∧
    ((soliton_aesgcm_encrypt_update c d onull len).1 = .invalid_input →
      (soliton_aesgcm_encrypt_update c d onull len).2.2 = c) ∧
    ((soliton_aesgcm_decrypt_update c d onull len).1 = .invalid_input →
      (soliton_aesgcm_decrypt_update c d onull len).2.2 = c) ∧
    ((soliton_aesgcm_encrypt_final c onull).1 = .invalid_input →
      (soliton_aesgcm_encrypt_final c onull).2.2 = c) ∧
    ((soliton_aesgcm_decrypt_final c tag).1 = .invalid_input →
      (soliton_aesgcm_decrypt_final c tag).2 = c) := by
  refine ⟨?_, ?_, ?_, ?_, ?_, ?_, ?_⟩
  · rcases key with _ | k <;> rcases iv with _ | v
    · exact fun _ => rfl
    · exact fun _ => rfl
    · exact fun _ => rfl
    · simp only [soliton_aesgcm_init]
      split_ifs with hv
      · exact fun _ => rfl
      · intro h; exact nomatch h
  · rcases iv with _ | v
    · exact fun _ => rfl
    · simp only [soliton_aesgcm_reset]
      split_ifs <;> first
      | exact fun _ => rfl
      | (intro h; exact nomatch h)
      | exact fun h => h.elim
  · simp only [soliton_aesgcm_aad_update]
    split_ifs
    · exact fun _ => rfl
    · exact fun _ => rfl
    · intro h; exact nomatch h
  · simp only [soliton_aesgcm_encrypt_update]
    split_ifs <;> first
    | exact fun _ => rfl
    | (intro h; exact nomatch h)
  · simp only [soliton_aesgcm_decrypt_update]
    split_ifs <;> first
    | exact fun _ => rfl
    | (intro h; exact nomatch h)
  · simp only [soliton_aesgcm_encrypt_final]
    split_ifs <;> first
    | exact fun _ => rfl
    | (intro h; exact nomatch h)
  · rcases tag with _ | t
    · exact fun _ => rfl
    · simp only [soliton_aesgcm_decrypt_final]
      split_ifs <;> first
      | exact fun _ => rfl
      | (intro h; exact nomatch h)

/-- C8 counterexample.  The claim says every operation other than wipe
fails with `invalid_input` on a FINAL context, naming reset among them;
but `soliton_aesgcm_reset` never checks `ctx->state`, so reset on a
finalized context returns `ok`. -/
theorem reset_after_final_returns_ok :
    (soliton_aesgcm_reset { aesgcm_fresh with state := .FINAL, backend_set := true }
        (some [0])).1 = .ok := rfl

/-- C8 (amended).  After finalization (state = FINAL), the data-path
operations aad_update, encrypt_update, decrypt_update, encrypt_final and
decrypt_final all fail with `invalid_input` and leave the context
unchanged; reset, however, is NOT locked out (see the counterexample). -/
theorem final_locks_operations (c : AesGcmCtx) (hst : c.state = .FINAL)
    (d tag : Option (List Nat)) (len : Nat) (onull : Bool) :
    soliton_aesgcm_aad_update c d len = (.invalid_input, c) ∧
    soliton_aesgcm_encrypt_update c d onull len = (.invalid_input, [], c) ∧
    soliton_aesgcm_decrypt_update c d onull len = (.invalid_input, [], c) ∧
    soliton_aesgcm_encrypt_final c onull = (.invalid_input, [], c) ∧
    soliton_aesgcm_decrypt_final c tag = (.invalid_input, c) := by
  refine ⟨?_, ?_, ?_, ?_, ?_⟩
  · simp only [soliton_aesgcm_aad_update]
    split_ifs with h1 h2
    · rfl
    · rfl
    · exact absurd ⟨by simp [hst], by simp [hst]⟩ h2
  · simp only [soliton_aesgcm_encrypt_update]
    split_ifs <;> first
    | rfl
    | exact absurd hst (by assumption)
  · simp only [soliton_aesgcm_decrypt_update]
    split_ifs <;> first
    | rfl
    | exact absurd hst (by assumption)
  · simp only [soliton_aesgcm_encrypt_final]
    split_ifs <;> first
    | rfl
    | exact absurd hst (by assumption)
  · rcases tag with _ | t
    · rfl
    · simp only [soliton_aesgcm_decrypt_final]
      split_ifs <;> first
      | rfl
      | exact absurd hst (by assumption)

theorem final_locks_operations_witness :
    ({ aesgcm_fresh with state := .FINAL } : AesGcmCtx).state = .FINAL ∧
    (soliton_aesgcm_aad_update { aesgcm_fresh with state := .FINAL } none 0 =
        (.invalid_input, { aesgcm_fresh with state := .FINAL }) ∧
      soliton_aesgcm_encrypt_update { aesgcm_fresh with state := .FINAL } none false 0 =
        (.invalid_input, [], { aesgcm_fresh with state := .FINAL }) ∧
      soliton_aesgcm_decrypt_update { aesgcm_fresh with state := .FINAL } none false 0 =
        (.invalid_input, [], { aesgcm_fresh with state := .FINAL }) ∧
      soliton_aesgcm_encrypt_final { aesgcm_fresh with state := .FINAL } false =
        (.invalid_input, [], { aesgcm_fresh with state := .FINAL }) ∧
      soliton_aesgcm_decrypt_final { aesgcm_fresh with state := .FINAL } none =
        (.invalid_input, { aesgcm_fresh with state := .FINAL })) :=
  ⟨rfl, final_locks_operations { aesgcm_fresh with state := .FINAL } rfl none none 0 false⟩

/-- C10.  Zero-length calls with null data pointers succeed and still
drive the state machine: on an INIT or AAD context, `aad_update(NULL,0)`
returns ok, `encrypt_update(NULL,NULL,0)` and `decrypt_update(NULL,NULL,0)`
return ok and move the state to UPDATE, after which an `aad_update` on
the same session returns `invalid_input`. -/
theorem zero_length_null_ok (c : AesGcmCtx) (hst : c.state = .INIT ∨ c.state = .AAD) :
    (soliton_aesgcm_aad_update c none 0).1 = .ok ∧
    (soliton_aesgcm_encrypt_update c none true 0).1 = .ok ∧
    (soliton_aesgcm_encrypt_update c none true 0).2.2.state = .UPDATE ∧
    (soliton_aesgcm_decrypt_update c none true 0).1 = .ok ∧
    (soliton_aesgcm_decrypt_update c none true 0).2.2.state = .UPDATE ∧
    (soliton_aesgcm_aad_update (soliton_aesgcm_encrypt_update c none true 0).2.2 none 0).1 =
      .invalid_input := by
  have hnf : c.state ≠ .FINAL := by rcases hst with h | h <;> simp [h]
  have henc : (soliton_aesgcm_encrypt_update c none true 0).2.2.state = .UPDATE := by
    simp only [soliton_aesgcm_encrypt_update]
    rw [if_neg (by simp), if_neg hnf]
  refine ⟨?_, ?_, henc, ?_, ?_, ?_⟩
  · simp only [soliton_aesgcm_aad_update]
    rw [if_neg (by simp)]
    rw [if_neg (by rcases hst with h | h <;> simp [h])]
  · simp only [soliton_aesgcm_encrypt_update]
    rw [if_neg (by simp), if_neg hnf]
  · simp only [soliton_aesgcm_decrypt_update]
    rw [if_neg (by simp), if_neg hnf]
  · simp only [soliton_aesgcm_decrypt_update]
    rw [if_neg (by simp), if_neg hnf]
  · simp only [soliton_aesgcm_aad_update]
    rw [if_neg (by simp)]
    rw [if_pos ⟨by rw [henc]; simp, by rw [henc]; simp⟩]

theorem zero_length_null_ok_witness :
    (aesgcm_fresh.state = .INIT ∨ aesgcm_fresh.state = .AAD) ∧
    ((soliton_aesgcm_aad_update aesgcm_fresh none 0).1 = .ok ∧
      (soliton_aesgcm_encrypt_update aesgcm_fresh none true 0).1 = .ok ∧
      (soliton_aesgcm_encrypt_update aesgcm_fresh none true 0).2.2.state = .UPDATE ∧
      (soliton_aesgcm_decrypt_update aesgcm_fresh none true 0).1 = .ok ∧
      (soliton_aesgcm_decrypt_update aesgcm_fresh none true 0).2.2.state = .UPDATE ∧
      (soliton_aesgcm_aad_update
          (soliton_aesgcm_encrypt_update aesgcm_fresh none true 0).2.2 none 0).1 =
        .invalid_input) :=
  ⟨Or.inl rfl, zero_length_null_ok aesgcm_fresh (Or.inl rfl)⟩

theorem aes_ks2_s0 :
    aes_add_round_key ((List.range 4).map fun i => soliton_le32 ((ctr_block j0z 2).drop (i * 4)))
      rk0 0 = [0, 0, 0, 33554432] := by decide

theorem aes_ks2_r1 :
    aes_round rk0 [0, 0, 0, 33554432] 1 =
      [1264547703, 1667457891, 1667457891, 1667457891] := by decide

theorem aes_ks2_r2 :
    aes_round rk0 [1264547703, 1667457891, 1667457891, 1667457891] 2 =
      [2325124741, 138465489, 2901460141, 2526446731] := by decide

theorem aes_ks2_r3 :
    aes_round rk0 [2325124741, 138465489, 2901460141, 2526446731] 3 =
      [2662634259, 3378522140, 4032449498, 485259235] := by decide

theorem aes_ks2_r4 :
    aes_round rk0 [2662634259, 3378522140, 4032449498, 485259235] 4 =
      [3791469803, 2025499685, 4021525397, 2432064012] := by decide

theorem aes_ks2_r5 :
    aes_round rk0 [3791469803, 2025499685, 4021525397, 2432064012] 5 =
      [1989118481, 1841979183, 2641264664, 854236477] := by decide

theorem aes_ks2_r6 :
    aes_round rk0 [1989118481, 1841979183, 2641264664, 854236477] 6 =
      [1256245946, 1751606663, 467636189, 3520209370] := by decide

theorem aes_ks2_r7 :
    aes_round rk0 [1256245946, 1751606663, 467636189, 3520209370] 7 =
      [1767727890, 411246489, 4098894877, 3872687091] := by decide

theorem aes_ks2_r8 :
    aes_round rk0 [1767727890, 411246489, 4098894877, 3872687091] 8 =
      [4238967697, 3161644069, 4057978988, 2358087314] := by decide

theorem aes_ks2_r9 :
    aes_round rk0 [4238967697, 3161644069, 4057978988, 2358087314] 9 =
      [2544335449, 2314430298, 1174263147, 980506349] := by decide

theorem aes_ks2_r10 :
    aes_round rk0 [2544335449, 2314430298, 1174263147, 980506349] 10 =
      [3732971689, 1710438893, 3388437656, 3979758628] := by decide

theorem aes_ks2_r11 :
    aes_round rk0 [3732971689, 1710438893, 3388437656, 3979758628] 11 =
      [3041370587, 3600748056, 2246762278, 969496171] := by decide

theorem aes_ks2_r12 :
    aes_round rk0 [3041370587, 3600748056, 2246762278, 969496171] 12 =
      [1155122429, 2509137075, 2669147517, 1062749034] := by decide

theorem aes_ks2_r13 :
    aes_round rk0 [1155122429, 2509137075, 2669147517, 1062749034] 13 =
      [74989980, 671909097, 1969025014, 2509171244] := by decide

theorem aes_ks2_fin :
    (aes_add_round_key (aes_shift_rows
        (([74989980, 671909097, 1969025014, 2509171244] : List Nat).map aes_sbox_word))
      rk0 (14 * 4)).flatMap soliton_put_le32 = ks2 := by decide

theorem ks2_eval : aes256_encrypt_block_scalar rk0 (ctr_block j0z 2) = ks2 := by
  rw [aes_block_rounds]
  rw [show List.range' 1 13 = [1, 2, 3, 4, 5, 6, 7, 8, 9, 10, 11, 12, 13] from by decide]
  simp only [List.foldl_cons, List.foldl_nil]
  rw [aes_ks2_s0, aes_ks2_r1, aes_ks2_r2, aes_ks2_r3, aes_ks2_r4, aes_ks2_r5, aes_ks2_r6, aes_ks2_r7, aes_ks2_r8, aes_ks2_r9, aes_ks2_r10, aes_ks2_r11, aes_ks2_r12, aes_ks2_r13, aes_ks2_fin]

theorem aes_ks3_s0 :
    aes_add_round_key ((List.range 4).map fun i => soliton_le32 ((ctr_block j0z 3).drop (i * 4)))
      rk0 0 = [0, 0, 0, 50331648] := by decide

theorem aes_ks3_r1 :
    aes_round rk0 [0, 0, 0, 50331648] 1 =
      [1397455739, 1667457891, 1667457891, 1667457891] := by decide

theorem aes_ks3_r2 :
    aes_round rk0 [1397455739, 1667457891, 1667457891, 1667457891] 2 =
      [3980542518, 3030552207, 3490201809, 1111635948] := by decide

theorem aes_ks3_r3 :
    aes_round rk0 [3980542518, 3030552207, 3490201809, 1111635948] 3 =
      [2247340183, 3777411886, 243995586, 1157452563] := by decide

theorem aes_ks3_r4 :
    aes_round rk0 [2247340183, 3777411886, 243995586, 1157452563] 4 =
      [2908321639, 3813257003, 2880268284, 1988497049] := by decide

theorem aes_ks3_r5 :
    aes_round rk0 [2908321639, 3813257003, 2880268284, 1988497049] 5 =
      [1644717642, 1764675435, 3811059514, 2998748749] := by decide

theorem aes_ks3_r6 :
    aes_round rk0 [1644717642, 1764675435, 3811059514, 2998748749] 6 =
      [1887495778, 356549439, 3122965005, 268500884] := by decide

theorem aes_ks3_r7 :
    aes_round rk0 [1887495778, 356549439, 3122965005, 268500884] 7 =
      [1911452426, 2719694454, 835821351, 3115699675] := by decide

theorem aes_ks3_r8 :
    aes_round rk0 [1911452426, 2719694454, 835821351, 3115699675] 8 =
      [2715592437, 1589748656, 1233922492, 2353229638] := by decide

theorem aes_ks3_r9 :
    aes_round rk0 [2715592437, 1589748656, 1233922492, 2353229638] 9 =
      [1218644962, 1727817571, 2224315297, 3664321062] := by decide

theorem aes_ks3_r10 :
    aes_round rk0 [1218644962, 1727817571, 2224315297, 3664321062] 10 =
      [3898457774, 1699560617, 1755476469, 1045953279] := by decide

theorem aes_ks3_r11 :
    aes_round rk0 [3898457774, 1699560617, 1755476469, 1045953279] 11 =
      [2451533328, 1057328772, 4216844272, 3537066895] := by decide

theorem aes_ks3_r12 :
    aes_round rk0 [2451533328, 1057328772, 4216844272, 3537066895] 12 =
      [3930656941, 1306876078, 3887769323, 489774518] := by decide

theorem aes_ks3_r13 :
    aes_round rk0 [3930656941, 1306876078, 3887769323, 489774518] 13 =
      [3371175851, 3837387404, 2655031015, 3378382170] := by decide

theorem aes_ks3_fin :
    (aes_add_round_key (aes_shift_rows
        (([3371175851, 3837387404, 2655031015, 3378382170] : List Nat).map aes_sbox_word))
      rk0 (14 * 4)).flatMap soliton_put_le32 = ks3 := by decide

theorem ks3_eval : aes256_encrypt_block_scalar rk0 (ctr_block j0z 3) = ks3 := by
  rw [aes_block_rounds]
  rw [show List.range' 1 13 = [1, 2, 3, 4, 5, 6, 7, 8, 9, 10, 11, 12, 13] from by decide]
  simp only [List.foldl_cons, List.foldl_nil]
  rw [aes_ks3_s0, aes_ks3_r1, aes_ks3_r2, aes_ks3_r3, aes_ks3_r4, aes_ks3_r5, aes_ks3_r6, aes_ks3_r7, aes_ks3_r8, aes_ks3_r9, aes_ks3_r10, aes_ks3_r11, aes_ks3_r12, aes_ks3_r13, aes_ks3_fin]

theorem gcm_ctr_final_eq (ctr n : Nat) (h : ctr < 2 ^ 32) :
    gcm_ctr_final ctr n = u32 (ctr + (n + 15) / 16) := by
  unfold gcm_ctr_final ctr_after u32
  rw [show (2:Nat) ^ 32 = 4294967296 from by norm_num]
  split_ifs <;> omega

theorem enc1_ct :
    (soliton_aesgcm_encrypt_update (aesgcm_init_core key0 iv12z) (some [0]) false
      ([0] : List Nat).length).2.1 = [0xce] := by
  rw [encrypt_update_ok (aesgcm_init_core key0 iv12z) [0] (by decide) rfl]
  show gcm_ct (aesgcm_init_core key0 iv12z).round_keys (aesgcm_init_core key0 iv12z).j0
    (aesgcm_init_core key0 iv12z).counter [0] = [0xce]
  rw [show (aesgcm_init_core key0 iv12z).round_keys = rk0 from rk0_eval]
  rw [show (aesgcm_init_core key0 iv12z).j0 = j0z from by decide]
  rw [show (aesgcm_init_core key0 iv12z).counter = 2 from rfl]
  rw [gcm_ct_def]
  rw [show ([0] : List Nat).length / 16 = 0 from rfl]
  rw [ctr_blocks_zero, List.nil_append]
  rw [show ctr_after 2 0 = 2 from rfl]
  rw [ks2_eval]
  decide

theorem enc2_ct :
    (soliton_aesgcm_encrypt_update
      (soliton_aesgcm_encrypt_update (aesgcm_init_core key0 iv12z) (some [0]) false
      ([0] : List Nat).length).2.2
      (some [0]) false ([0] : List Nat).length).2.1 = [0x72] := by
  rw [encrypt_update_ok
    (soliton_aesgcm_encrypt_update (aesgcm_init_core key0 iv12z) (some [0]) false
      ([0] : List Nat).length).2.2 [0] (by decide) rfl]
  show gcm_ct
    ((soliton_aesgcm_encrypt_update (aesgcm_init_core key0 iv12z) (some [0]) false
      ([0] : List Nat).length).2.2).round_keys
    ((soliton_aesgcm_encrypt_update (aesgcm_init_core key0 iv12z) (some [0]) false
      ([0] : List Nat).length).2.2).j0
    ((soliton_aesgcm_encrypt_update (aesgcm_init_core key0 iv12z) (some [0]) false
      ([0] : List Nat).length).2.2).counter [0] = [0x72]
  rw [show ((soliton_aesgcm_encrypt_update (aesgcm_init_core key0 iv12z) (some [0]) false
      ([0] : List Nat).length).2.2).round_keys = rk0 from rk0_eval]
  rw [show ((soliton_aesgcm_encrypt_update (aesgcm_init_core key0 iv12z) (some [0]) false
      ([0] : List Nat).length).2.2).j0 = j0z from by decide]
  rw [show ((soliton_aesgcm_encrypt_update (aesgcm_init_core key0 iv12z) (some [0]) false
      ([0] : List Nat).length).2.2).counter = 3 from by decide]
  rw [gcm_ct_def]
  rw [show ([0] : List Nat).length / 16 = 0 from rfl]
  rw [ctr_blocks_zero, List.nil_append]
  rw [show ctr_after 3 0 = 3 from rfl]
  rw [ks3_eval]
  decide

theorem oneshot2_ct :
    (soliton_aesgcm_encrypt_update (aesgcm_init_core key0 iv12z) (some [0, 0]) false
      ([0, 0] : List Nat).length).2.1 = [0xce, 0xa7] := by
  rw [encrypt_update_ok (aesgcm_init_core key0 iv12z) [0, 0] (by decide) rfl]
  show gcm_ct (aesgcm_init_core key0 iv12z).round_keys (aesgcm_init_core key0 iv12z).j0
    (aesgcm_init_core key0 iv12z).counter [0, 0] = [0xce, 0xa7]
  rw [show (aesgcm_init_core key0 iv12z).round_keys = rk0 from rk0_eval]
  rw [show (aesgcm_init_core key0 iv12z).j0 = j0z from by decide]
  rw [show (aesgcm_init_core key0 iv12z).counter = 2 from rfl]
  rw [gcm_ct_def]
  rw [show ([0, 0] : List Nat).length / 16 = 0 from rfl]
  rw [ctr_blocks_zero, List.nil_append]
  rw [show ctr_after 2 0 = 2 from rfl]
  rw [ks2_eval]
  decide

/-- C9.  No partial-block carry across update calls: init zeroes
`buffer_len`, and a successful encrypt_update or decrypt_update of `n`
bytes leaves `buffer_len` unchanged and advances the 32-bit counter by
exactly ceil(n/16) (the trailing partial block consumes a counter block
within the same call).  Consequently splitting a message at a non-16
boundary changes the ciphertext: for the all-zero key and 96-bit IV,
encrypting 1 byte then 1 byte gives a different ciphertext than the
2-byte one-shot. -/
theorem update_partial_block_contract (c : AesGcmCtx) (pt key iv : List Nat)
    (hst : c.state ≠ .FINAL) (hrdy : c.h_powers_ready = true) (hctr : c.counter < 2 ^ 32) :
    (aesgcm_init_core key iv).buffer_len = 0 ∧
    (soliton_aesgcm_encrypt_update c (some pt) false pt.length).2.2.buffer_len =
      c.buffer_len ∧
    (soliton_aesgcm_encrypt_update c (some pt) false pt.length).2.2.counter =
      u32 (c.counter + (pt.length + 15) / 16) ∧
    (soliton_aesgcm_decrypt_update c (some pt) false pt.length).2.2.buffer_len =
      c.buffer_len ∧
    (soliton_aesgcm_decrypt_update c (some pt) false pt.length).2.2.counter =
      u32 (c.counter + (pt.length + 15) / 16) ∧
    (soliton_aesgcm_encrypt_update (aesgcm_init_core key0 iv12z) (some [0]) false
        ([0] : List Nat).length).2.1 ++
      (soliton_aesgcm_encrypt_update
        (soliton_aesgcm_encrypt_update (aesgcm_init_core key0 iv12z) (some [0]) false
          ([0] : List Nat).length).2.2 (some [0]) false ([0] : List Nat).length).2.1 ≠
      (soliton_aesgcm_encrypt_update (aesgcm_init_core key0 iv12z) (some [0, 0]) false
        ([0, 0] : List Nat).length).2.1 := by
  refine ⟨rfl, ?_, ?_, ?_, ?_, ?_⟩
  · rw [encrypt_update_ok c pt hst hrdy]
  · rw [encrypt_update_ok c pt hst hrdy]
    show gcm_ctr_final c.counter pt.length = _
    exact gcm_ctr_final_eq c.counter pt.length hctr
  · rw [decrypt_update_ok c pt hst]
  · rw [decrypt_update_ok c pt hst]
    show gcm_ctr_final c.counter pt.length = _
    exact gcm_ctr_final_eq c.counter pt.length hctr
  · rw [enc1_ct, enc2_ct, oneshot2_ct]
    decide

theorem update_partial_block_contract_witness :
    ((aesgcm_init_core key0 iv12z).state ≠ .FINAL ∧
      (aesgcm_init_core key0 iv12z).h_powers_ready = true ∧
      (aesgcm_init_core key0 iv12z).counter < 2 ^ 32) ∧
    ((aesgcm_init_core key0 iv12z).buffer_len = 0 ∧
    (soliton_aesgcm_encrypt_update (aesgcm_init_core key0 iv12z) (some [5]) false ([5] : List Nat).length).2.2.buffer_len =
      ((aesgcm_init_core key0 iv12z)).buffer_len ∧
    (soliton_aesgcm_encrypt_update (aesgcm_init_core key0 iv12z) (some [5]) false ([5] : List Nat).length).2.2.counter =
      u32 (((aesgcm_init_core key0 iv12z)).counter + (([5] : List Nat).length + 15) / 16) ∧
    (soliton_aesgcm_decrypt_update (aesgcm_init_core key0 iv12z) (some [5]) false ([5] : List Nat).length).2.2.buffer_len =
      ((aesgcm_init_core key0 iv12z)).buffer_len ∧
    (soliton_aesgcm_decrypt_update (aesgcm_init_core key0 iv12z) (some [5]) false ([5] : List Nat).length).2.2.counter =
      u32 (((aesgcm_init_core key0 iv12z)).counter + (([5] : List Nat).length + 15) / 16) ∧
    (soliton_aesgcm_encrypt_update (aesgcm_init_core key0 iv12z) (some [0]) false
        ([0] : List Nat).length).2.1 ++
      (soliton_aesgcm_encrypt_update
        (soliton_aesgcm_encrypt_update (aesgcm_init_core key0 iv12z) (some [0]) false
          ([0] : List Nat).length).2.2 (some [0]) false ([0] : List Nat).length).2.1 ≠
      (soliton_aesgcm_encrypt_update (aesgcm_init_core key0 iv12z) (some [0, 0]) false
        ([0, 0] : List Nat).length).2.1) :=
  ⟨⟨by decide, rfl, by decide⟩,
    update_partial_block_contract (aesgcm_init_core key0 iv12z) [5] key0 iv12z
      (by decide) rfl (by decide)⟩

end Soliton
